import Mathlib

/-!
Shallow embedding of the scoring/aggregation engine of the model-audit CLI
(src/src/scoring.py, src/src/models.py, src/src/metrics/*.py, src/src/utils.py,
src/src/hf_api.py), together with theorems settling the frozen claims about it.

Conventions of the embedding:
* Python `str` values are modelled as `List Char`; `str.lower`, `in`
  (substring test), `startswith`, `endswith` and `replace` are implemented
  below over character lists.
* Python floats are modelled as exact rationals (`ℚ`) everywhere the code does
  plain arithmetic, and as reals (`ℝ`) in the size metric, whose curve uses
  `math.pow` with exponent 1.2 and `round(_, 3)`.
* Possibly-raising calls are modelled with `Except`/`Option`: a caught
  exception is an `Except.error` input, the `try/except` that swallows it is
  the `match` that maps `error` to the fallback value.
* Network / filesystem evidence (Hugging Face API payloads, git clone and
  static-analysis outcomes) enters the scoring functions as explicit
  parameters, mirroring the call boundary in the source.
-/

/-! ## String utilities (models of Python str operations) -/

/-- Model of Python `str.startswith` / list prefix test on character lists. -/
def isPrefixOfL : List Char → List Char → Bool
  | [], _ => true
  | _ :: _, [] => false
  | a :: as, b :: bs => a == b && isPrefixOfL as bs

/-- Model of Python `pat in hay` (substring containment). -/
def inStr (pat : List Char) : List Char → Bool
  | [] => isPrefixOfL pat []
  | c :: rest => isPrefixOfL pat (c :: rest) || inStr pat rest

/-- Model of Python `str.endswith`. -/
def endsWithL (suffix s : List Char) : Bool :=
  isPrefixOfL suffix.reverse s.reverse

/-- Model of Python `str.lower` (ASCII case folding). -/
def lowerL (s : List Char) : List Char :=
  s.map Char.toLower

/-- Fuel-indexed worker for `replaceAllSub` (structural recursion on fuel so
that the definition evaluates by `decide`). -/
def replaceAllAux (pat : List Char) : Nat → List Char → List Char
  | 0, hay => hay
  | _ + 1, [] => []
  | fuel + 1, c :: rest =>
    if pat ≠ [] ∧ isPrefixOfL pat (c :: rest) then
      replaceAllAux pat fuel (List.drop (pat.length - 1) rest)
    else
      c :: replaceAllAux pat fuel rest

/-- Model of Python `str.replace(pat, '')`: delete every (leftmost,
non-overlapping) occurrence of `pat`. -/
def replaceAllSub (pat hay : List Char) : List Char :=
  replaceAllAux pat hay.length hay

/-- Model of Python truthiness for strings: the empty string is falsy. -/
def truthyStr (s : List Char) : Bool :=
  !s.isEmpty

/-- Model of Python truthiness for an optional string field
(`None` and `""` are both falsy). -/
def truthyOptStr : Option (List Char) → Bool
  | none => false
  | some s => truthyStr s

/-- Model of Python `min` on two numbers (kept as an `if` over the decidable
order so that concrete evaluations reduce). -/
def pymin (a b : ℚ) : ℚ :=
  if a ≤ b then a else b

/-- Model of Python `max` on two numbers. -/
def pymax (a b : ℚ) : ℚ :=
  if a ≤ b then b else a

/-! ## Data model (src/src/models.py) -/

/-- Coarse URL buckets (`URLCategory`). -/
inductive URLCategory where
  | MODEL
  | DATASET
  | CODE
deriving DecidableEq, Repr

/-- Minimal information about a URL (`ParsedURL`). -/
structure ParsedURL where
  url : List Char
  category : URLCategory
  name : List Char
  platform : List Char
  owner : Option (List Char) := none
  repo : Option (List Char) := none
deriving DecidableEq, Repr

/-- Hugging Face API payload as consumed by the metrics: the fields of the
dict built by `HuggingFaceAPI.get_model_info` that the scoring code reads
(`downloads`, `likes`, `tags`, `files`, `model_index`, `last_modified`);
the two `*_present` booleans model Python truthiness of the corresponding
dict entries. -/
structure HFInfo where
  downloads : ℤ := 0
  likes : ℤ := 0
  tags : List (List Char) := []
  files : List (List Char) := []
  modelIndexPresent : Bool := false
  lastModifiedPresent : Bool := false
deriving DecidableEq, Repr

/-- Per-device size scores (`SizeScore`), raw field values. -/
structure SizeScore where
  raspberry_pi : ℚ
  jetson_nano : ℚ
  desktop_pc : ℚ
  aws_server : ℚ
deriving DecidableEq, Repr

/-- Single metric output (`MetricResult`), raw field values. -/
structure MetricResult where
  score : ℚ
  latency : ℤ
deriving DecidableEq, Repr

/-- Pydantic validation of `MetricResult` (`score` constrained to `[0,1]` by
`ge=0.0, le=1.0`, `latency` constrained by `ge=0`): construction succeeds
exactly when the constraints hold. -/
def mkMetricResult (score : ℚ) (latency : ℤ) : Option MetricResult :=
  if 0 ≤ score ∧ score ≤ 1 ∧ 0 ≤ latency then
    some ⟨score, latency⟩
  else
    none

/-- Pydantic validation of `SizeScore` (all four device fields constrained to
`[0,1]`). -/
def mkSizeScore (rp jn dp aw : ℚ) : Option SizeScore :=
  if 0 ≤ rp ∧ rp ≤ 1 ∧ 0 ≤ jn ∧ jn ≤ 1 ∧ 0 ≤ dp ∧ dp ≤ 1 ∧ 0 ≤ aw ∧ aw ≤ 1 then
    some ⟨rp, jn, dp, aw⟩
  else
    none

/-- Flattened output record (`AuditResult`), raw field values. -/
structure AuditResult where
  name : List Char
  category : List Char
  net_score : ℚ
  net_score_latency : ℤ
  ramp_up_time : ℚ
  ramp_up_time_latency : ℤ
  bus_factor : ℚ
  bus_factor_latency : ℤ
  performance_claims : ℚ
  performance_claims_latency : ℤ
  license : ℚ
  license_latency : ℤ
  size_score : SizeScore
  size_score_latency : ℤ
  dataset_and_code_score : ℚ
  dataset_and_code_score_latency : ℤ
  dataset_quality : ℚ
  dataset_quality_latency : ℤ
  code_quality : ℚ
  code_quality_latency : ℤ
deriving DecidableEq, Repr

/-- The conjunction of all pydantic field constraints on `AuditResult`:
every score field in `[0,1]` (the size score expanded to its four device
sub-scores) and every latency field non-negative. -/
def auditFieldsValid (a : AuditResult) : Prop :=
  0 ≤ a.net_score ∧ a.net_score ≤ 1 ∧ 0 ≤ a.net_score_latency ∧
  0 ≤ a.ramp_up_time ∧ a.ramp_up_time ≤ 1 ∧ 0 ≤ a.ramp_up_time_latency ∧
  0 ≤ a.bus_factor ∧ a.bus_factor ≤ 1 ∧ 0 ≤ a.bus_factor_latency ∧
  0 ≤ a.performance_claims ∧ a.performance_claims ≤ 1 ∧
    0 ≤ a.performance_claims_latency ∧
  0 ≤ a.license ∧ a.license ≤ 1 ∧ 0 ≤ a.license_latency ∧
  0 ≤ a.size_score.raspberry_pi ∧ a.size_score.raspberry_pi ≤ 1 ∧
  0 ≤ a.size_score.jetson_nano ∧ a.size_score.jetson_nano ≤ 1 ∧
  0 ≤ a.size_score.desktop_pc ∧ a.size_score.desktop_pc ≤ 1 ∧
  0 ≤ a.size_score.aws_server ∧ a.size_score.aws_server ≤ 1 ∧
  0 ≤ a.size_score_latency ∧
  0 ≤ a.dataset_and_code_score ∧ a.dataset_and_code_score ≤ 1 ∧
    0 ≤ a.dataset_and_code_score_latency ∧
  0 ≤ a.dataset_quality ∧ a.dataset_quality ≤ 1 ∧
    0 ≤ a.dataset_quality_latency ∧
  0 ≤ a.code_quality ∧ a.code_quality ≤ 1 ∧ 0 ≤ a.code_quality_latency

instance (a : AuditResult) : Decidable (auditFieldsValid a) := by
  unfold auditFieldsValid
  infer_instance

/-- Pydantic validation of `AuditResult`: construction succeeds exactly when
all field constraints hold. -/
def mkAuditResult (a : AuditResult) : Option AuditResult :=
  if auditFieldsValid a then some a else none

/-- Model context (`ModelContext`): the model URL, linked datasets and code
repositories, plus the three enrichment fields populated by
`MetricScorer._enrich_context` (each `None` until enrichment, and left `None`
by a failed fetch). Parsed JSON config documents are modelled by the raw
file text keyed by file name. -/
structure ModelContext where
  model_url : ParsedURL
  datasets : List ParsedURL := []
  code_repos : List ParsedURL := []
  hf_info : Option HFInfo := none
  readme_content : Option (List Char) := none
  config_data : Option (List (List Char × List Char)) := none
deriving DecidableEq, Repr

/-! ## Ramp-up time metric (src/src/metrics/ramp_up.py) -/

/-- Installation-instruction keywords (`install_indicators`). -/
def installIndicators : List (List Char) :=
  ["install", "pip install", "conda install", "npm install", "yarn install",
   "setup", "installation", "getting started", "requirements",
   "dependencies"].map (·.data)

/-- Training/evaluation-example keywords (`training_indicators`). -/
def trainingIndicators : List (List Char) :=
  ["training", "train", "fine-tuning", "fine tuning", "finetune",
   "evaluation", "eval", "benchmark", "test", "validate"].map (·.data)

/-- Usage/API-example keywords (`api_indicators`). -/
def apiIndicators : List (List Char) :=
  ["usage", "example", "how to use", "quickstart", "tutorial",
   "from transformers", "import", "model.", "pipeline", "```python",
   "```py", "api", "inference"].map (·.data)

/-- Example/tutorial/notebook file test in the ramp-up bonus check
(`has_examples` inside `_calculate_ramp_up_score`). -/
def isExampleFile (f : List Char) : Bool :=
  inStr "example".data (lowerL f) || inStr "tutorial".data (lowerL f) ||
    inStr "notebook".data (lowerL f) || endsWithL ".ipynb".data f

/-- Model of `RampUpTimeMetric._calculate_ramp_up_score`. -/
def calculateRampUpScore (readme : Option (List Char))
    (hfInfo : Option HFInfo) : ℚ :=
  if ¬truthyOptStr readme then 1/10
  else
    let rl := lowerL (readme.getD [])
    let s1 : ℚ := 1/4
    let s2 := s1 + (if installIndicators.any (fun k => inStr k rl) then 1/4 else 0)
    let s3 := s2 + (if trainingIndicators.any (fun k => inStr k rl) then 1/4 else 0)
    let s4 := s3 + (if apiIndicators.any (fun k => inStr k rl) then 1/4 else 0)
    let s5 := s4 +
      (match hfInfo with
       | some i =>
         if ¬i.files.isEmpty ∧ i.files.any isExampleFile then 1/10 else 0
       | none => 0)
    pymin 1 s5

/-! ## License metric (src/src/metrics/license_score.py) -/

/-- First tag of the form `license:<id>`, with the `license:` occurrences
deleted (`tag.replace('license:', '')`), as in the tag loop of
`_calculate_license_score`. -/
def licenseFromTags : List (List Char) → Option (List Char)
  | [] => none
  | t :: rest =>
    if isPrefixOfL "license:".data t then some (replaceAllSub "license:".data t)
    else licenseFromTags rest

/-- Normalization applied before license matching:
`license_info.lower().replace('-', '').replace('_', '').replace(' ', '')`. -/
def normalizeLicense (s : List Char) : List Char :=
  replaceAllSub " ".data (replaceAllSub "_".data (replaceAllSub "-".data (lowerL s)))

/-- Permissive license identifiers (`compatible_licenses`). -/
def compatibleLicenses : List (List Char) :=
  ["mit", "apache2.0", "apache20", "apache", "bsd3clause", "bsd2clause",
   "bsd", "bsd3", "bsd2", "bsdnew", "bsdmodified", "bsdsimplified"].map (·.data)

/-- LGPL variants (`lgpl_variants`). -/
def lgplVariants : List (List Char) :=
  ["lgpl", "lessergpl", "lgplv2", "lgplv3", "lgpl2.1", "lgpl3.0"].map (·.data)

/-- GPL/AGPL variants (`gpl_variants`). -/
def gplVariants : List (List Char) :=
  ["gpl", "gplv2", "gplv3", "gpl2.0", "gpl3.0", "agpl", "agplv3"].map (·.data)

/-- Model of `LicenseScoreMetric._calculate_license_score`. The README
license locator `parse_license_from_readme` (a regex extractor in
src/src/utils.py) is passed in as the function `parseReadme`; everything
else is embedded directly. -/
def calculateLicenseScore (parseReadme : List Char → Option (List Char))
    (hfInfo : Option HFInfo) (readme : Option (List Char)) : ℚ :=
  let licenseInfo : Option (List Char) :=
    match hfInfo with
    | some i => if ¬i.tags.isEmpty then licenseFromTags i.tags else none
    | none => none
  let licenseInfo2 : Option (List Char) :=
    if ¬truthyOptStr licenseInfo ∧ truthyOptStr readme then
      parseReadme (readme.getD [])
    else licenseInfo
  if ¬truthyOptStr licenseInfo2 then 3/10
  else
    let ll := normalizeLicense (licenseInfo2.getD [])
    if compatibleLicenses.any (fun c => inStr c ll) then 1
    else if lgplVariants.any (fun c => inStr c ll) then 4/5
    else if gplVariants.any (fun c => inStr c ll) then 7/10
    else 1/2

/-! ## Performance-claims metric (src/src/metrics/performance_claims.py) -/

/-- Explicit negative statements (`negative_indicators`). -/
def negativeIndicators : List (List Char) :=
  ["no performance", "no benchmark", "no evaluation", "no results"].map (·.data)

/-- Benchmark keywords (`benchmark_patterns`). -/
def benchmarkPatterns : List (List Char) :=
  ["glue", "squad", "mmlu", "accuracy", "f1", "bleu", "rouge", "score",
   "benchmark", "%", "percent"].map (·.data)

/-- Paper/citation keywords (`paper_indicators`). -/
def paperIndicators : List (List Char) :=
  ["arxiv", "paper", "citation", "https://arxiv.org", "methodology",
   "experiment", "evaluation protocol", "see paper"].map (·.data)

/-- Reproducibility keywords (`reproducible_indicators`). -/
def reproducibleIndicators : List (List Char) :=
  ["reproduce", "reproducible", "script", "code", "github.com/", "colab",
   "notebook", "eval.py", "evaluation.py", "steps to reproduce"].map (·.data)

/-- Detailed-results keywords (`detailed_indicators`). -/
def detailedIndicators : List (List Char) :=
  ["|", "table", "multiple", "various", "several"].map (·.data)

/-- Model of `PerformanceClaimsMetric._calculate_performance_score`. -/
def calculatePerformanceScore (readme : Option (List Char)) : ℚ :=
  if ¬truthyOptStr readme then 0
  else
    let rl := lowerL (readme.getD [])
    if negativeIndicators.any (fun k => inStr k rl) then 1/20
    else
      let hasBenchmarks := benchmarkPatterns.any (fun k => inStr k rl)
      let hasPaperRef := paperIndicators.any (fun k => inStr k rl)
      let hasReproducible := reproducibleIndicators.any (fun k => inStr k rl)
      let hasDetailedResults := detailedIndicators.any (fun k => inStr k rl)
      if hasBenchmarks && hasPaperRef && hasDetailedResults then 17/20
      else if hasBenchmarks && hasPaperRef then 3/4
      else if hasReproducible && hasBenchmarks then 1
      else if hasBenchmarks then 1/2
      else 1/10

/-! ## Bus-factor metric (src/src/metrics/bus_factor.py) -/

/-- Bus-factor threshold configuration
(`config['thresholds']['bus_factor']` with the in-code defaults). -/
structure BusFactorThresholds where
  min_contributors : ℤ := 3
  recent_commits_window_days : ℤ := 90
  single_contributor_penalty : ℚ := 1/2
deriving DecidableEq, Repr

/-- Model of `BusFactorMetric._analyze_hf_engagement`. -/
def analyzeHfEngagement (i : HFInfo) : ℚ :=
  let e1 : ℚ :=
    if i.downloads > 10000 then 2/5
    else if i.downloads > 1000 then 3/10
    else if i.downloads > 100 then 1/5
    else if i.downloads > 10 then 1/10
    else 0
  let e2 := e1 +
    (if i.likes > 100 then 3/10
     else if i.likes > 50 then 1/5
     else if i.likes > 10 then 1/10
     else if i.likes > 0 then 1/20
     else 0)
  let e3 := e2 + (if i.lastModifiedPresent then 1/10 else 0)
  pymin (4/5) e3

/-- Git-side score of the repo loop in `_calculate_bus_factor_score`: each
entry is the outcome of `GitInspector.clone_repo` + `analyze_repository` for
one linked code repo — `some ua` when the clone succeeded with
`unique_authors = ua`, `none` when `clone_repo` returned `None`.  The loop
breaks at the first successful clone; if none succeeds, `git_score` keeps its
initial `0.0`. -/
def gitScoreFromClones (th : BusFactorThresholds) : List (Option ℤ) → ℚ
  | [] => 0
  | none :: rest => gitScoreFromClones th rest
  | some ua :: _ =>
    if ua ≥ th.min_contributors then 4/5
    else if ua = 2 then 3/5
    else if ua = 1 then th.single_contributor_penalty
    else 1/10

/-- Model of `BusFactorMetric._calculate_bus_factor_score`.  `hfInfo = none`
covers a falsy `context.hf_info` (in which case `weight_git` is raised to
`1.0`); `clones` are the per-repo git outcomes aligned with
`context.code_repos` (the empty list when no code repo is linked, leaving
`git_score = 0.0`). -/
def calculateBusFactorScore (th : BusFactorThresholds) (hfInfo : Option HFInfo)
    (clones : List (Option ℤ)) : ℚ :=
  match hfInfo with
  | some i =>
    pymin 1 (analyzeHfEngagement i * (3/5) + gitScoreFromClones th clones * (2/5))
  | none => pymin 1 (gitScoreFromClones th clones * 1)

/-! ## Dataset-and-code metric (src/src/metrics/dataset_and_code.py) -/

/-- Dataset-indicating README keywords (`dataset_indicators`). -/
def datasetIndicators : List (List Char) :=
  ["dataset:", "training data", "train on", "trained on",
   "huggingface.co/datasets/", "dataset link", "data source"].map (·.data)

/-- Code/example-indicating README keywords (`code_indicators`). -/
def codeIndicators : List (List Char) :=
  ["training script", "train.py", "fine-tune", "finetune", "example code",
   "training code", "github.com/", "colab", "jupyter", "notebook", "script",
   "example:", "tutorial"].map (·.data)

/-- Example/script file test in the file-listing fallback of
`_calculate_dataset_code_score`. -/
def isScriptFile (f : List Char) : Bool :=
  endsWithL ".py".data f || endsWithL ".ipynb".data f ||
    inStr "train".data (lowerL f) || inStr "example".data (lowerL f)

/-- Model of `DatasetAndCodeScoreMetric._calculate_dataset_code_score`. -/
def calculateDatasetCodeScore (datasets : List ParsedURL)
    (codeRepos : List ParsedURL) (readme : Option (List Char))
    (hfInfo : Option HFInfo) : ℚ :=
  let hasDatasetLink1 :=
    if ¬datasets.isEmpty then true
    else if truthyOptStr readme then
      datasetIndicators.any (fun k => inStr k (lowerL (readme.getD [])))
    else false
  let hasDatasetLink :=
    if !hasDatasetLink1 &&
        (match hfInfo with | some i => i.modelIndexPresent | none => false) then
      true
    else hasDatasetLink1
  let hasExampleCode1 :=
    if ¬codeRepos.isEmpty then true
    else if truthyOptStr readme then
      codeIndicators.any (fun k => inStr k (lowerL (readme.getD [])))
    else false
  let hasExampleCode :=
    if !hasExampleCode1 &&
        (match hfInfo with | some i => !i.files.isEmpty | none => false) then
      (hfInfo.map (fun i => i.files.any isScriptFile)).getD false
    else hasExampleCode1
  if hasDatasetLink ∧ hasExampleCode then 1
  else if hasDatasetLink ∨ hasExampleCode then 1/2
  else 1/10

/-! ## Dataset-quality metric (src/src/metrics/dataset_quality.py) -/

/-- Size/sample-count keywords (`size_indicators`). -/
def dsSizeIndicators : List (List Char) :=
  ["size", "samples", "examples", "instances", "records", "entries", "rows",
   "datapoints", "mb", "gb", "kb", "million", "thousand"].map (·.data)

/-- Benchmark-reference keywords (`benchmark_indicators`). -/
def dsBenchmarkIndicators : List (List Char) :=
  ["benchmark", "evaluation", "baseline", "performance", "accuracy", "f1",
   "bleu", "rouge", "glue", "squad", "superglue", "results"].map (·.data)

/-- Model of `DatasetQualityMetric._analyze_dataset_content`: the 4-field
checklist over a README, with optional dataset-info tags for the license
field (`dsTags = some tags` when `get_dataset_info` returned a payload). -/
def analyzeDatasetContent (readme : List Char)
    (dsTags : Option (List (List Char))) : ℚ :=
  let rl := lowerL readme
  let s1 : ℚ :=
    if inStr "description".data rl ∨ inStr "overview".data rl ∨
        inStr "dataset".data rl ∨ readme.length > 300 then 1/4 else 0
  let s2 := s1 + (if dsSizeIndicators.any (fun k => inStr k rl) then 1/4 else 0)
  let licenseFound :=
    if inStr "license".data rl then true
    else
      match dsTags with
      | some tags => ¬tags.isEmpty ∧ tags.any (fun t => inStr "license:".data t)
      | none => false
  let s3 := s2 + (if licenseFound then 1/4 else 0)
  let s4 := s3 + (if dsBenchmarkIndicators.any (fun k => inStr k rl) then 1/4 else 0)
  s4

/-- Model of `DatasetQualityMetric._analyze_hf_dataset_quality`: per-dataset
analysis from the fetched dataset README and dataset-info tags; a missing or
empty README scores `0.0`. -/
def analyzeHfDatasetQuality (fetchedReadme : Option (List Char))
    (dsTags : Option (List (List Char))) : ℚ :=
  if ¬truthyOptStr fetchedReadme then 0
  else analyzeDatasetContent (fetchedReadme.getD []) dsTags

/-- Model of `DatasetQualityMetric._analyze_readme_dataset_quality`. -/
def analyzeReadmeDatasetQuality (readme : List Char) : ℚ :=
  analyzeDatasetContent readme none

/-- Accumulating loop over the linked datasets paired with their fetch
outcomes: Hugging Face datasets are analyzed and counted, others skipped. -/
def dsQualityFold :
    List (ParsedURL × (Option (List Char) × Option (List (List Char)))) → ℚ × ℕ
  | [] => (0, 0)
  | (ds, f) :: rest =>
    let acc := dsQualityFold rest
    if ds.platform = "huggingface".data then
      (acc.1 + analyzeHfDatasetQuality f.1 f.2, acc.2 + 1)
    else acc

/-- Model of `DatasetQualityMetric._calculate_dataset_quality_score`.
`fetches` holds, for each linked dataset in order, the outcomes of the two
network fetches made for it (`get_readme_content`, `get_dataset_info`). -/
def calculateDatasetQualityScore (datasets : List ParsedURL)
    (readme : Option (List Char))
    (fetches : List (Option (List Char) × Option (List (List Char)))) : ℚ :=
  if datasets.isEmpty then
    if truthyOptStr readme then analyzeReadmeDatasetQuality (readme.getD [])
    else 3/10
  else
    let acc := dsQualityFold (datasets.zip fetches)
    if acc.2 = 0 then
      if truthyOptStr readme then analyzeReadmeDatasetQuality (readme.getD [])
      else 3/10
    else acc.1 / acc.2

/-! ## Code-quality metric (src/src/metrics/code_quality.py) -/

/-- Model of the tail of `CodeQualityMetric._analyze_code_quality_by_spec`:
base score `clamp(1 - total_errors/50, 0, 1)`, a `+0.1` bump for a tests
directory, a `+0.1` bump for CI configuration, capped at `1.0`.  The
error-counting preamble (flake8/mypy subprocess runs and their file-count
fallbacks) is summarized by its resulting `total_errors` count. -/
def analyzeCodeQualityBySpec (totalErrors : ℕ) (hasTests hasCI : Bool) : ℚ :=
  let baseScore := pymax 0 (pymin 1 (1 - (totalErrors : ℚ) / 50))
  let b2 := baseScore + (if hasTests then 1/10 else 0)
  let b3 := b2 + (if hasCI then 1/10 else 0)
  pymin 1 b3

/-- Repo loop of `_calculate_code_quality_score` over (repo, clone outcome)
pairs: GitHub repos are cloned; the first successful clone is analyzed and
the loop breaks; failed clones fall through to the next repo. -/
def codeQualityFold : List (ParsedURL × Option (ℕ × Bool × Bool)) → ℚ × ℕ
  | [] => (0, 0)
  | (repo, outcome) :: rest =>
    if repo.platform = "github".data then
      match outcome with
      | some (e, t, c) => (analyzeCodeQualityBySpec e t c, 1)
      | none => codeQualityFold rest
    else codeQualityFold rest

/-- Model of `CodeQualityMetric._calculate_code_quality_score`.  `outcomes`
holds, for each of the first two linked code repos, `some (errors, hasTests,
hasCI)` when the clone succeeded and `none` when it failed. -/
def calculateCodeQualityScore (codeRepos : List ParsedURL)
    (outcomes : List (Option (ℕ × Bool × Bool))) : ℚ :=
  if codeRepos.isEmpty then 2/5
  else
    let acc := codeQualityFold ((codeRepos.take 2).zip outcomes)
    if acc.2 = 0 then 2/5 else acc.1 / acc.2

/-! ## Size metric (src/src/metrics/size_score.py) -/

/-- Model of Python `round(x, 3)` (three-decimal rounding; ties modelled by
round-half-up on exact reals). -/
noncomputable def round3 (x : ℝ) : ℝ :=
  (round (x * 1000) : ℤ) / 1000

/-- Model of `SizeScoreMetric._calculate_device_score`: `0.0` for a
non-positive limit, otherwise `round(1 / (1 + (size/limit) ** 1.2), 3)`. -/
noncomputable def calculateDeviceScore (model_size_gb limit_gb : ℝ) : ℝ :=
  if limit_gb ≤ 0 then 0
  else round3 (1 / (1 + (model_size_gb / limit_gb) ^ (1.2 : ℝ)))

/-- Device capacity limits read from
`config['thresholds']['size_limits']`, with the in-code defaults. -/
structure SizeLimits where
  raspberry_pi : ℝ := 2
  jetson_nano : ℝ := 8
  desktop_pc : ℝ := 32
  aws_server : ℝ := 128

/-- Raw (pre-validation) per-device size scores over the reals. -/
structure SizeScoresVal where
  raspberry_pi : ℝ
  jetson_nano : ℝ
  desktop_pc : ℝ
  aws_server : ℝ

/-- Model of `SizeScoreMetric._calculate_size_scores` downstream of the size
estimate: one device score per configured limit.  The size estimate produced
by `_estimate_model_size` (README/file-listing/name heuristics, always a
non-negative number of gigabytes) enters as `estimated_size_gb`. -/
noncomputable def calculateSizeScores (estimated_size_gb : ℝ)
    (limits : SizeLimits) : SizeScoresVal :=
  { raspberry_pi := calculateDeviceScore estimated_size_gb limits.raspberry_pi
    jetson_nano := calculateDeviceScore estimated_size_gb limits.jetson_nano
    desktop_pc := calculateDeviceScore estimated_size_gb limits.desktop_pc
    aws_server := calculateDeviceScore estimated_size_gb limits.aws_server }

/-! ## Latency measurement (src/src/utils.py `measure_time`) -/

/-- Model of the `measure_time` latency:
`int((perf_counter() - start) * 1000)` for clock readings `start ≤ stop`
(truncation coincides with `Int.floor` on non-negative values). -/
noncomputable def latencyMs (start stop : ℝ) : ℤ :=
  ⌊(stop - start) * 1000⌋

/-! ## Scoring orchestrator (src/src/scoring.py) -/

/-- An exception raised inside an evaluator (or a provider call), carrying
its message. -/
inductive EvalError where
  | exn (msg : List Char)
deriving DecidableEq, Repr

/-- Entries of the `results` dict built by
`MetricScorer._compute_metrics_parallel`: scalar metric results, the size
score record, and the size-score latency. -/
inductive ResultEntry where
  | res (r : MetricResult)
  | size (s : SizeScore)
  | lat (n : ℤ)
deriving DecidableEq, Repr

/-- Evaluator outcomes for one model context, in the fixed order of
`MetricScorer.metrics`: for each metric, either the `MetricResult` its
`compute` returned (`ok`) or the exception it raised (`error`); the size
metric goes through `_compute_size_metric_with_latency` and yields a
`(SizeScore, latency)` pair. -/
structure EvalOutcomes where
  ramp_up_time : Except EvalError MetricResult
  bus_factor : Except EvalError MetricResult
  performance_claims : Except EvalError MetricResult
  license : Except EvalError MetricResult
  size_score : Except EvalError (SizeScore × ℤ)
  dataset_and_code_score : Except EvalError MetricResult
  dataset_quality : Except EvalError MetricResult
  code_quality : Except EvalError MetricResult
deriving Repr

/-- The `try/except` around each awaited evaluator: a raised exception is
logged and replaced with the zero-score/zero-latency default
`MetricResult(score=0.0, latency=0)`. -/
def excDefault : Except EvalError MetricResult → MetricResult
  | .ok r => r
  | .error _ => ⟨0, 0⟩

/-- Model of `MetricScorer._compute_metrics_parallel`: awaits the evaluator
outcomes in metric order, catching each exception individually; the size
metric records its `SizeScore` and its own latency entry, defaulting to the
all-zero record and latency `0` on error.  The function is total: no
evaluator exception propagates out of it. -/
def computeMetricsParallel (o : EvalOutcomes) : List (String × ResultEntry) :=
  [("ramp_up_time", ResultEntry.res (excDefault o.ramp_up_time)),
   ("bus_factor", ResultEntry.res (excDefault o.bus_factor)),
   ("performance_claims", ResultEntry.res (excDefault o.performance_claims)),
   ("license", ResultEntry.res (excDefault o.license))] ++
  (match o.size_score with
   | .ok (s, l) => [("size_score", ResultEntry.size s),
                    ("size_score_latency", ResultEntry.lat l)]
   | .error _ => [("size_score", ResultEntry.size ⟨0, 0, 0, 0⟩),
                  ("size_score_latency", ResultEntry.lat 0)]) ++
  [("dataset_and_code_score", ResultEntry.res (excDefault o.dataset_and_code_score)),
   ("dataset_quality", ResultEntry.res (excDefault o.dataset_quality)),
   ("code_quality", ResultEntry.res (excDefault o.code_quality))]

/-- Test for dict keys skipped by the net-score loop
(`metric_name.endswith('_latency')`). -/
def endsWithLatency (s : String) : Bool :=
  endsWithL "_latency".data s.data

/-- Loop body of `MetricScorer._calculate_net_score`: accumulate
`weight * score` and the applied weight for a `MetricResult` entry, skipping
the `size_score` record and `*_latency` entries. -/
def netScoreStep (weights : List (String × ℚ)) (acc : ℚ × ℚ)
    (kv : String × ResultEntry) : ℚ × ℚ :=
  if kv.1 = "size_score" ∨ endsWithLatency kv.1 then acc
  else
    let weight := (weights.lookup kv.1).getD 0
    match kv.2 with
    | .res r => (acc.1 + r.score * weight, acc.2 + weight)
    | _ => acc

/-- Model of `MetricScorer._calculate_net_score`: iterate the results dict,
accumulating `weight * score` and the applied weight for every
`MetricResult` entry (skipping the `size_score` record and latency entries),
fold in the arithmetic mean of the four size sub-scores with the size weight,
and divide by `max(total_weight, 1.0)`. -/
def calculateNetScore (weights : List (String × ℚ))
    (metricResults : List (String × ResultEntry)) : ℚ :=
  let acc := metricResults.foldl (netScoreStep weights) (0, 0)
  let acc2 :=
    match metricResults.lookup "size_score" with
    | some (.size s) =>
      let sizeWeight := (weights.lookup "size_score").getD 0
      (acc.1 +
        ((s.raspberry_pi + s.jetson_nano + s.desktop_pc + s.aws_server) / 4) *
          sizeWeight,
       acc.2 + sizeWeight)
    | _ => acc
  acc2.1 / pymax acc2.2 1

/-- Default metric weights from `MetricScorer._get_default_config`. -/
def defaultMetricWeights : List (String × ℚ) :=
  [("ramp_up_time", 15/100), ("bus_factor", 10/100),
   ("performance_claims", 15/100), ("license", 10/100),
   ("size_score", 15/100), ("dataset_and_code_score", 15/100),
   ("dataset_quality", 10/100), ("code_quality", 10/100)]

/-! ## Evidence enrichment (src/src/hf_api.py, src/src/scoring.py) -/

/-- Raw `huggingface_hub` model-info payload: the attributes that
`HuggingFaceAPI.get_model_info` copies into its dict and that the metrics
later read. -/
structure RawModelInfo where
  downloads : ℤ := 0
  likes : ℤ := 0
  tags : List (List Char) := []
  modelIndexPresent : Bool := false
  lastModifiedPresent : Bool := false
deriving DecidableEq, Repr

/-- Model of `HuggingFaceAPI.get_model_info`: `None` for non-Hugging-Face
URLs or a missing repo name; every exception from the underlying
`model_info` call (including repository-not-found) is caught and mapped to
`None`; a failing `list_repo_files` call only degrades `files` to `[]`. -/
def getModelInfo (url : ParsedURL) (modelInfoCall : Except EvalError RawModelInfo)
    (listFilesCall : Except EvalError (List (List Char))) : Option HFInfo :=
  if url.platform ≠ "huggingface".data ∨ ¬truthyOptStr url.repo then none
  else
    match modelInfoCall with
    | .error _ => none
    | .ok m =>
      some { downloads := m.downloads, likes := m.likes, tags := m.tags,
             files := (match listFilesCall with
                       | .ok fs => fs
                       | .error _ => []),
             modelIndexPresent := m.modelIndexPresent,
             lastModifiedPresent := m.lastModifiedPresent }

/-- README file names tried in order by `get_readme_content`. -/
def readmeFileNames : List (List Char) :=
  ["README.md", "readme.md", "README.txt", "readme.txt"].map (·.data)

/-- The loop of `get_readme_content`: try each file name with
`download_file` (whose internal `try/except` maps any exception to `None`)
and return the first truthy content. -/
def readmeLoop (download : List Char → Except EvalError (List Char)) :
    List (List Char) → Option (List Char)
  | [] => none
  | f :: rest =>
    match download f with
    | .ok c => if truthyStr c then some c else readmeLoop download rest
    | .error _ => readmeLoop download rest

/-- Model of `HuggingFaceAPI.get_readme_content`. -/
def getReadmeContent (url : ParsedURL)
    (download : List Char → Except EvalError (List Char)) :
    Option (List Char) :=
  if url.platform ≠ "huggingface".data ∨ ¬truthyOptStr url.repo then none
  else readmeLoop download readmeFileNames

/-- Config file names tried by `get_model_config`. -/
def configFileNames : List (List Char) :=
  ["config.json", "model_index.json", "tokenizer.json"].map (·.data)

/-- Model of `HuggingFaceAPI.get_model_config`: collect each config file
whose download returned truthy content that parses as JSON (`jsonOk` models
`json.loads` succeeding; parsed documents are carried as their raw text);
an empty collection becomes `None`. -/
def getModelConfig (url : ParsedURL)
    (download : List Char → Except EvalError (List Char))
    (jsonOk : List Char → Bool) : Option (List (List Char × List Char)) :=
  if url.platform ≠ "huggingface".data ∨ ¬truthyOptStr url.repo then none
  else
    let entries := configFileNames.filterMap fun f =>
      match download f with
      | .ok c => if truthyStr c ∧ jsonOk c then some (f, c) else none
      | .error _ => none
    if entries.isEmpty then none else some entries

/-- Model of `MetricScorer._enrich_context`: sequentially populate the three
enrichment fields from the three API calls; a failed call leaves its field
`None` and the remaining calls still run.  Total: no provider exception
escapes enrichment. -/
def enrichContext (ctx : ModelContext)
    (modelInfoCall : Except EvalError RawModelInfo)
    (listFilesCall : Except EvalError (List (List Char)))
    (downloadReadme : List Char → Except EvalError (List Char))
    (downloadConfig : List Char → Except EvalError (List Char))
    (jsonOk : List Char → Bool) : ModelContext :=
  { ctx with
    hf_info := getModelInfo ctx.model_url modelInfoCall listFilesCall
    readme_content := getReadmeContent ctx.model_url downloadReadme
    config_data := getModelConfig ctx.model_url downloadConfig jsonOk }

/-! ## Helper lemmas -/

theorem pymin_eq_min (a b : ℚ) : pymin a b = min a b := by
  rw [pymin, min_def]

theorem pymax_eq_max (a b : ℚ) : pymax a b = max a b := by
  rw [pymax, max_def]

theorem pymax_one_of_le {a : ℚ} (h : a ≤ 1) : pymax a 1 = 1 := by
  rw [pymax, if_pos h]

theorem pymax_one_of_ge {a : ℚ} (h : 1 ≤ a) : pymax a 1 = a := by
  rw [pymax]
  split_ifs with h'
  · exact le_antisymm h h'
  · rfl

theorem nskipRamp :
    ¬(("ramp_up_time" : String) = "size_score" ∨
      endsWithLatency "ramp_up_time" = true) := by decide

theorem nskipBus :
    ¬(("bus_factor" : String) = "size_score" ∨
      endsWithLatency "bus_factor" = true) := by decide

theorem nskipPerf :
    ¬(("performance_claims" : String) = "size_score" ∨
      endsWithLatency "performance_claims" = true) := by decide

theorem nskipLic :
    ¬(("license" : String) = "size_score" ∨
      endsWithLatency "license" = true) := by decide

theorem nskipDsc :
    ¬(("dataset_and_code_score" : String) = "size_score" ∨
      endsWithLatency "dataset_and_code_score" = true) := by decide

theorem nskipDq :
    ¬(("dataset_quality" : String) = "size_score" ∨
      endsWithLatency "dataset_quality" = true) := by decide

theorem nskipCq :
    ¬(("code_quality" : String) = "size_score" ∨
      endsWithLatency "code_quality" = true) := by decide

theorem netScoreStep_keep (weights : List (String × ℚ)) (acc : ℚ × ℚ) (k : String)
    (r : MetricResult) (hk : ¬(k = "size_score" ∨ endsWithLatency k = true)) :
    netScoreStep weights acc (k, ResultEntry.res r) =
      (acc.1 + r.score * (weights.lookup k).getD 0,
       acc.2 + (weights.lookup k).getD 0) := by
  simp [netScoreStep, hk]

theorem netScoreStep_skip_size (weights : List (String × ℚ)) (acc : ℚ × ℚ)
    (e : ResultEntry) : netScoreStep weights acc ("size_score", e) = acc := by
  simp [netScoreStep]

theorem netScoreStep_skip_sizeLat (weights : List (String × ℚ)) (acc : ℚ × ℚ)
    (e : ResultEntry) : netScoreStep weights acc ("size_score_latency", e) = acc := by
  have h : endsWithLatency "size_score_latency" = true := by decide
  simp [netScoreStep, h]

/-- Weight configuration registering a weight for each of the 8 metric names
(`metric_weights` mapping, in the registration order of the default
config). -/
def weightsOf (w1 w2 w3 w4 w5 w6 w7 w8 : ℚ) : List (String × ℚ) :=
  [("ramp_up_time", w1), ("bus_factor", w2), ("performance_claims", w3),
   ("license", w4), ("size_score", w5), ("dataset_and_code_score", w6),
   ("dataset_quality", w7), ("code_quality", w8)]

theorem wlRamp (w1 w2 w3 w4 w5 w6 w7 w8 : ℚ) :
    List.lookup "ramp_up_time" (weightsOf w1 w2 w3 w4 w5 w6 w7 w8) = some w1 := by
  simp [weightsOf, List.lookup]

theorem wlBus (w1 w2 w3 w4 w5 w6 w7 w8 : ℚ) :
    List.lookup "bus_factor" (weightsOf w1 w2 w3 w4 w5 w6 w7 w8) = some w2 := by
  simp [weightsOf, List.lookup]

theorem wlPerf (w1 w2 w3 w4 w5 w6 w7 w8 : ℚ) :
    List.lookup "performance_claims" (weightsOf w1 w2 w3 w4 w5 w6 w7 w8) = some w3 := by
  simp [weightsOf, List.lookup]

theorem wlLic (w1 w2 w3 w4 w5 w6 w7 w8 : ℚ) :
    List.lookup "license" (weightsOf w1 w2 w3 w4 w5 w6 w7 w8) = some w4 := by
  simp [weightsOf, List.lookup]

theorem wlSize (w1 w2 w3 w4 w5 w6 w7 w8 : ℚ) :
    List.lookup "size_score" (weightsOf w1 w2 w3 w4 w5 w6 w7 w8) = some w5 := by
  simp [weightsOf, List.lookup]

theorem wlDsc (w1 w2 w3 w4 w5 w6 w7 w8 : ℚ) :
    List.lookup "dataset_and_code_score" (weightsOf w1 w2 w3 w4 w5 w6 w7 w8) = some w6 := by
  simp [weightsOf, List.lookup]

theorem wlDq (w1 w2 w3 w4 w5 w6 w7 w8 : ℚ) :
    List.lookup "dataset_quality" (weightsOf w1 w2 w3 w4 w5 w6 w7 w8) = some w7 := by
  simp [weightsOf, List.lookup]

theorem wlCq (w1 w2 w3 w4 w5 w6 w7 w8 : ℚ) :
    List.lookup "code_quality" (weightsOf w1 w2 w3 w4 w5 w6 w7 w8) = some w8 := by
  simp [weightsOf, List.lookup]

theorem rlookupSize (o : EvalOutcomes) (s : SizeScore) (lsz : ℤ)
    (h : o.size_score = Except.ok (s, lsz)) :
    List.lookup "size_score" (computeMetricsParallel o) =
      some (ResultEntry.size s) := by
  simp [computeMetricsParallel, h, List.lookup]

/-- The fully evaluated all-evaluators-succeeded bundle of outcomes. -/
def okOutcomes (s1 s2 s3 s4 s5 s6 s7 a b c d : ℚ)
    (l1 l2 l3 l4 l5 l6 l7 lsz : ℤ) : EvalOutcomes :=
  { ramp_up_time := .ok ⟨s1, l1⟩, bus_factor := .ok ⟨s2, l2⟩,
    performance_claims := .ok ⟨s3, l3⟩, license := .ok ⟨s4, l4⟩,
    size_score := .ok (⟨a, b, c, d⟩, lsz),
    dataset_and_code_score := .ok ⟨s5, l5⟩,
    dataset_quality := .ok ⟨s6, l6⟩, code_quality := .ok ⟨s7, l7⟩ }

set_option maxHeartbeats 1000000 in
theorem netScore_closed_form (w1 w2 w3 w4 w5 w6 w7 w8 s1 s2 s3 s4 s5 s6 s7 a b c d : ℚ)
    (l1 l2 l3 l4 l5 l6 l7 lsz : ℤ) :
    calculateNetScore (weightsOf w1 w2 w3 w4 w5 w6 w7 w8)
      (computeMetricsParallel (okOutcomes s1 s2 s3 s4 s5 s6 s7 a b c d l1 l2 l3 l4 l5 l6 l7 lsz)) =
      (s1 * w1 + s2 * w2 + s3 * w3 + s4 * w4 + ((a + b + c + d) / 4) * w5 +
          s5 * w6 + s6 * w7 + s7 * w8) /
        pymax (w1 + w2 + w3 + w4 + w5 + w6 + w7 + w8) 1 := by
  rw [calculateNetScore, rlookupSize _ ⟨a, b, c, d⟩ lsz rfl]
  simp only [computeMetricsParallel, okOutcomes, excDefault, List.cons_append,
    List.nil_append, List.foldl_cons, List.foldl_nil,
    netScoreStep_keep _ _ _ _ nskipRamp, netScoreStep_keep _ _ _ _ nskipBus,
    netScoreStep_keep _ _ _ _ nskipPerf, netScoreStep_keep _ _ _ _ nskipLic,
    netScoreStep_keep _ _ _ _ nskipDsc, netScoreStep_keep _ _ _ _ nskipDq,
    netScoreStep_keep _ _ _ _ nskipCq,
    netScoreStep_skip_size, netScoreStep_skip_sizeLat,
    wlRamp, wlBus, wlPerf, wlLic, wlSize, wlDsc, wlDq, wlCq, Option.getD_some]
  ring_nf

/-! ## Claim C1 — net-score aggregation -/

/-- C1 (amended): for metric results with the orchestrator's dict shape and a
weight configuration with non-negative weights, `_calculate_net_score`
returns the weighted sum (the size metric contributing the arithmetic mean
of its four device sub-scores) divided by `max(total applied weight, 1.0)` —
not by the total applied weight itself.  Hence the result is the claimed
weighted average whenever the total applied weight is at least 1, it is 0
when the total applied weight is 0, and the all-scores-0.7 equal-weights
identity holds when the weights sum to at least 1 (e.g. the default
configuration). -/
theorem C1_net_score_amended
    (w1 w2 w3 w4 w5 w6 w7 w8 s1 s2 s3 s4 s5 s6 s7 a b c d : ℚ)
    (l1 l2 l3 l4 l5 l6 l7 lsz : ℤ)
    (hw1 : 0 ≤ w1) (hw2 : 0 ≤ w2) (hw3 : 0 ≤ w3) (hw4 : 0 ≤ w4) (hw5 : 0 ≤ w5)
    (hw6 : 0 ≤ w6) (hw7 : 0 ≤ w7) (hw8 : 0 ≤ w8) :
    calculateNetScore (weightsOf w1 w2 w3 w4 w5 w6 w7 w8)
        (computeMetricsParallel
          (okOutcomes s1 s2 s3 s4 s5 s6 s7 a b c d l1 l2 l3 l4 l5 l6 l7 lsz)) =
      (s1 * w1 + s2 * w2 + s3 * w3 + s4 * w4 + ((a + b + c + d) / 4) * w5 +
          s5 * w6 + s6 * w7 + s7 * w8) /
        pymax (w1 + w2 + w3 + w4 + w5 + w6 + w7 + w8) 1 ∧
    (w1 + w2 + w3 + w4 + w5 + w6 + w7 + w8 = 0 →
      calculateNetScore (weightsOf w1 w2 w3 w4 w5 w6 w7 w8)
        (computeMetricsParallel
          (okOutcomes s1 s2 s3 s4 s5 s6 s7 a b c d l1 l2 l3 l4 l5 l6 l7 lsz)) = 0) ∧
    (1 ≤ w1 + w2 + w3 + w4 + w5 + w6 + w7 + w8 →
      calculateNetScore (weightsOf w1 w2 w3 w4 w5 w6 w7 w8)
        (computeMetricsParallel
          (okOutcomes s1 s2 s3 s4 s5 s6 s7 a b c d l1 l2 l3 l4 l5 l6 l7 lsz)) =
      (s1 * w1 + s2 * w2 + s3 * w3 + s4 * w4 + ((a + b + c + d) / 4) * w5 +
          s5 * w6 + s6 * w7 + s7 * w8) /
        (w1 + w2 + w3 + w4 + w5 + w6 + w7 + w8)) ∧
    (1 ≤ w1 + w2 + w3 + w4 + w5 + w6 + w7 + w8 →
      s1 = 7/10 → s2 = 7/10 → s3 = 7/10 → s4 = 7/10 → s5 = 7/10 →
      s6 = 7/10 → s7 = 7/10 → (a + b + c + d) / 4 = 7/10 →
      calculateNetScore (weightsOf w1 w2 w3 w4 w5 w6 w7 w8)
        (computeMetricsParallel
          (okOutcomes s1 s2 s3 s4 s5 s6 s7 a b c d l1 l2 l3 l4 l5 l6 l7 lsz)) = 7/10) := by
  have hcf := netScore_closed_form w1 w2 w3 w4 w5 w6 w7 w8 s1 s2 s3 s4 s5 s6 s7
    a b c d l1 l2 l3 l4 l5 l6 l7 lsz
  refine ⟨hcf, ?_, ?_, ?_⟩
  · intro h0
    have hz1 : w1 = 0 := by linarith
    have hz2 : w2 = 0 := by linarith
    have hz3 : w3 = 0 := by linarith
    have hz4 : w4 = 0 := by linarith
    have hz5 : w5 = 0 := by linarith
    have hz6 : w6 = 0 := by linarith
    have hz7 : w7 = 0 := by linarith
    have hz8 : w8 = 0 := by linarith
    rw [hcf, hz1, hz2, hz3, hz4, hz5, hz6, hz7, hz8]
    norm_num [pymax]
  · intro h1
    rw [hcf, pymax_one_of_ge h1]
  · intro h1 e1 e2 e3 e4 e5 e6 e7 e8
    have htot : (0 : ℚ) < w1 + w2 + w3 + w4 + w5 + w6 + w7 + w8 :=
      lt_of_lt_of_le one_pos h1
    rw [hcf, pymax_one_of_ge h1, e1, e2, e3, e4, e5, e6, e7, e8,
      div_eq_iff htot.ne']
    ring

/-- C1 (counterexample): with all 8 metric scalar scores forced to 0.7
(size sub-scores all 0.7, so their mean is 0.7) and all 8 weights equal to
the positive value 0.05, the code returns 0.28 — the weighted sum divided by
`max(0.4, 1.0) = 1` — whereas the claimed weighted average (division by the
total applied weight 0.4) is 0.7. -/
theorem C1_net_score_counterexample :
    calculateNetScore
        (weightsOf (1/20) (1/20) (1/20) (1/20) (1/20) (1/20) (1/20) (1/20))
        (computeMetricsParallel
          (okOutcomes (7/10) (7/10) (7/10) (7/10) (7/10) (7/10) (7/10)
            (7/10) (7/10) (7/10) (7/10) 1 1 1 1 1 1 1 2)) = 7/25 ∧
    ((7 : ℚ)/10 * (8 * (1/20))) / (8 * (1/20)) = 7/10 ∧
    (7 : ℚ)/25 ≠ 7/10 := by
  refine ⟨?_, by norm_num, by norm_num⟩
  with_unfolding_all decide

/-- C1 (witness): the amended theorem at the default weight configuration
(weights sum to 1) with every score 0.7 yields net score 0.7. -/
theorem C1_net_score_witness :
    calculateNetScore
        (weightsOf (15/100) (10/100) (15/100) (10/100) (15/100) (15/100)
          (10/100) (10/100))
        (computeMetricsParallel
          (okOutcomes (7/10) (7/10) (7/10) (7/10) (7/10) (7/10) (7/10)
            (7/10) (7/10) (7/10) (7/10) 1 1 1 1 1 1 1 2)) = 7/10 :=
  (C1_net_score_amended (15/100) (10/100) (15/100) (10/100) (15/100) (15/100)
      (10/100) (10/100) (7/10) (7/10) (7/10) (7/10) (7/10) (7/10) (7/10)
      (7/10) (7/10) (7/10) (7/10) 1 1 1 1 1 1 1 2
      (by norm_num) (by norm_num) (by norm_num) (by norm_num) (by norm_num)
      (by norm_num) (by norm_num) (by norm_num)).2.2.2
    (by norm_num) rfl rfl rfl rfl rfl rfl rfl (by norm_num)

/-! ## Real-valued helper lemmas for the size curve -/

theorem round_le_round_real {a b : ℝ} (h : a ≤ b) : round a ≤ round b := by
  rw [round_eq, round_eq]
  exact Int.floor_le_floor (by linarith)

theorem round3_nonneg {x : ℝ} (hx : 0 ≤ x) : 0 ≤ round3 x := by
  rw [round3]
  have h0 : (0 : ℤ) ≤ round (x * 1000) := by
    have := round_le_round_real (by nlinarith : (0 : ℝ) ≤ x * 1000)
    rwa [round_zero] at this
  positivity

theorem round3_le_one {x : ℝ} (hx : x ≤ 1) : round3 x ≤ 1 := by
  rw [round3]
  have h1 : round (x * 1000) ≤ 1000 := by
    have := round_le_round_real (by nlinarith : x * 1000 ≤ (1000 : ℝ))
    rwa [show round ((1000 : ℝ)) = 1000 by
      rw [show ((1000 : ℝ)) = ((1000 : ℤ) : ℝ) by norm_num, round_intCast]] at this
  rw [div_le_one (by norm_num : (0 : ℝ) < 1000)]
  exact_mod_cast h1

theorem calculateDeviceScore_mem_Icc {s L : ℝ} (hs : 0 ≤ s) :
    0 ≤ calculateDeviceScore s L ∧ calculateDeviceScore s L ≤ 1 := by
  rw [calculateDeviceScore]
  split_ifs with hL
  · norm_num
  · have hL' : 0 < L := lt_of_not_le hL
    have hr : 0 ≤ s / L := div_nonneg hs hL'.le
    have hx : 0 ≤ (s / L) ^ (1.2 : ℝ) := Real.rpow_nonneg hr _
    have hden : (0 : ℝ) < 1 + (s / L) ^ (1.2 : ℝ) := by linarith
    constructor
    · exact round3_nonneg (by positivity)
    · exact round3_le_one (by rw [div_le_one hden]; linarith)

/-! ## Claim C2 — per-device size score curve -/

/-- C2 (code bug): the claim — and the docstring of
`_calculate_device_score` ("<= limit → 1.0") together with the assertions of
`test_coverage_boost.py` — require the score 1.0 whenever the estimated size
is at or below the device limit, but the implemented smooth curve
`round(1 / (1 + (size/limit) ** 1.2), 3)` returns 0.5 at `size = limit = 2.0`
(and below 1.0 for every positive size), contradicting the code's own
documentation and tests. -/
theorem C2_device_score_code_bug :
    calculateDeviceScore 2 2 = 1/2 ∧ calculateDeviceScore 2 2 ≠ 1 := by
  have h : calculateDeviceScore 2 2 = 1/2 := by
    rw [calculateDeviceScore, if_neg (by norm_num : ¬(2 : ℝ) ≤ 0)]
    rw [show (2 : ℝ)/2 = 1 by norm_num, Real.one_rpow]
    rw [show (1 : ℝ)/(1 + 1) = 1/2 by norm_num]
    rw [round3, show ((1 : ℝ)/2) * 1000 = ((500 : ℤ) : ℝ) by norm_num,
      round_intCast]
    norm_num
  exact ⟨h, by rw [h]; norm_num⟩

/-! ## Claim C3 — evaluator-failure isolation in the orchestrator -/

/-- The `SizeScore` recorded for the size metric: the computed record on
success, the all-zero record when the evaluator raised. -/
def excSizeDefault : Except EvalError (SizeScore × ℤ) → SizeScore
  | .ok (s, _) => s
  | .error _ => ⟨0, 0, 0, 0⟩

/-- The size-score latency entry: the measured latency on success, `0` when
the evaluator raised. -/
def excSizeLatDefault : Except EvalError (SizeScore × ℤ) → ℤ
  | .ok (_, l) => l
  | .error _ => 0

/-- C3: `_compute_metrics_parallel` is a total function of the evaluator
outcomes (no evaluator exception propagates out of it), each metric's
recorded entry is determined by that metric's own outcome alone — so an
exception in one evaluator leaves every other metric's recorded result
unaffected — and a raising evaluator is recorded as the zero-score /
zero-latency default (the all-zero four-device record and latency `0` for
the size metric), here stated for an exception in the license evaluator. -/
theorem C3_evaluator_isolation (o : EvalOutcomes) (e : EvalError) :
    List.lookup "ramp_up_time" (computeMetricsParallel o) =
      some (ResultEntry.res (excDefault o.ramp_up_time)) ∧
    List.lookup "bus_factor" (computeMetricsParallel o) =
      some (ResultEntry.res (excDefault o.bus_factor)) ∧
    List.lookup "performance_claims" (computeMetricsParallel o) =
      some (ResultEntry.res (excDefault o.performance_claims)) ∧
    List.lookup "license" (computeMetricsParallel o) =
      some (ResultEntry.res (excDefault o.license)) ∧
    List.lookup "size_score" (computeMetricsParallel o) =
      some (ResultEntry.size (excSizeDefault o.size_score)) ∧
    List.lookup "size_score_latency" (computeMetricsParallel o) =
      some (ResultEntry.lat (excSizeLatDefault o.size_score)) ∧
    List.lookup "dataset_and_code_score" (computeMetricsParallel o) =
      some (ResultEntry.res (excDefault o.dataset_and_code_score)) ∧
    List.lookup "dataset_quality" (computeMetricsParallel o) =
      some (ResultEntry.res (excDefault o.dataset_quality)) ∧
    List.lookup "code_quality" (computeMetricsParallel o) =
      some (ResultEntry.res (excDefault o.code_quality)) ∧
    (o.license = .error e →
      List.lookup "license" (computeMetricsParallel o) =
        some (ResultEntry.res ⟨0, 0⟩)) := by
  obtain ⟨r1, r2, r3, r4, rs, r5, r6, r7⟩ := o
  cases rs with
  | error er =>
    refine ⟨by simp [computeMetricsParallel, List.lookup],
      by simp [computeMetricsParallel, List.lookup],
      by simp [computeMetricsParallel, List.lookup],
      by simp [computeMetricsParallel, List.lookup],
      by simp [computeMetricsParallel, List.lookup, excSizeDefault],
      by simp [computeMetricsParallel, List.lookup, excSizeLatDefault],
      by simp [computeMetricsParallel, List.lookup],
      by simp [computeMetricsParallel, List.lookup],
      by simp [computeMetricsParallel, List.lookup], ?_⟩
    intro h
    subst h
    simp [computeMetricsParallel, List.lookup, excDefault]
  | ok p =>
    obtain ⟨ss, sl⟩ := p
    refine ⟨by simp [computeMetricsParallel, List.lookup],
      by simp [computeMetricsParallel, List.lookup],
      by simp [computeMetricsParallel, List.lookup],
      by simp [computeMetricsParallel, List.lookup],
      by simp [computeMetricsParallel, List.lookup, excSizeDefault],
      by simp [computeMetricsParallel, List.lookup, excSizeLatDefault],
      by simp [computeMetricsParallel, List.lookup],
      by simp [computeMetricsParallel, List.lookup],
      by simp [computeMetricsParallel, List.lookup], ?_⟩
    intro h
    subst h
    simp [computeMetricsParallel, List.lookup, excDefault]

/-- C3 (witness): with the license evaluator raising and every other
evaluator succeeding with score 1/2, the license entry is the zero default
while the ramp-up entry keeps its computed result. -/
theorem C3_evaluator_isolation_witness :
    List.lookup "license"
      (computeMetricsParallel
        { ramp_up_time := .ok ⟨1/2, 3⟩, bus_factor := .ok ⟨1/2, 3⟩,
          performance_claims := .ok ⟨1/2, 3⟩,
          license := .error (.exn "boom".data),
          size_score := .ok (⟨1, 1, 1, 1⟩, 4),
          dataset_and_code_score := .ok ⟨1/2, 3⟩,
          dataset_quality := .ok ⟨1/2, 3⟩, code_quality := .ok ⟨1/2, 3⟩ }) =
      some (ResultEntry.res ⟨0, 0⟩) ∧
    List.lookup "ramp_up_time"
      (computeMetricsParallel
        { ramp_up_time := .ok ⟨1/2, 3⟩, bus_factor := .ok ⟨1/2, 3⟩,
          performance_claims := .ok ⟨1/2, 3⟩,
          license := .error (.exn "boom".data),
          size_score := .ok (⟨1, 1, 1, 1⟩, 4),
          dataset_and_code_score := .ok ⟨1/2, 3⟩,
          dataset_quality := .ok ⟨1/2, 3⟩, code_quality := .ok ⟨1/2, 3⟩ }) =
      some (ResultEntry.res ⟨1/2, 3⟩) := by
  have h := C3_evaluator_isolation
    { ramp_up_time := .ok ⟨1/2, 3⟩, bus_factor := .ok ⟨1/2, 3⟩,
      performance_claims := .ok ⟨1/2, 3⟩,
      license := .error (.exn "boom".data),
      size_score := .ok (⟨1, 1, 1, 1⟩, 4),
      dataset_and_code_score := .ok ⟨1/2, 3⟩,
      dataset_quality := .ok ⟨1/2, 3⟩, code_quality := .ok ⟨1/2, 3⟩ }
    (.exn "boom".data)
  exact ⟨h.2.2.2.2.2.2.2.2.2 rfl, h.1⟩

/-! ## Range lemmas for the metric scorers -/

theorem pymin_one_nonneg {t : ℚ} (ht : 0 ≤ t) : 0 ≤ pymin 1 t := by
  rw [pymin]
  split_ifs <;> linarith

theorem pymin_one_le_one (t : ℚ) : pymin 1 t ≤ 1 := by
  rw [pymin]
  split_ifs <;> linarith

theorem le_pymax_left (a b : ℚ) : a ≤ pymax a b := by
  rw [pymax]
  split_ifs <;> linarith

theorem le_pymax_right (a b : ℚ) : b ≤ pymax a b := by
  rw [pymax]
  split_ifs <;> linarith

theorem calculateRampUpScore_mem (readme : Option (List Char))
    (hfInfo : Option HFInfo) :
    0 ≤ calculateRampUpScore readme hfInfo ∧
      calculateRampUpScore readme hfInfo ≤ 1 := by
  rcases hfInfo with _ | i <;>
    · simp only [calculateRampUpScore]
      split_ifs <;> norm_num [pymin]

theorem calculateLicenseScore_mem (parseReadme : List Char → Option (List Char))
    (hfInfo : Option HFInfo) (readme : Option (List Char)) :
    0 ≤ calculateLicenseScore parseReadme hfInfo readme ∧
      calculateLicenseScore parseReadme hfInfo readme ≤ 1 := by
  rcases hfInfo with _ | i <;>
    · simp only [calculateLicenseScore]
      split_ifs <;> norm_num

theorem calculatePerformanceScore_mem (readme : Option (List Char)) :
    0 ≤ calculatePerformanceScore readme ∧
      calculatePerformanceScore readme ≤ 1 := by
  simp only [calculatePerformanceScore]
  split_ifs <;> norm_num

theorem analyzeHfEngagement_mem (i : HFInfo) :
    0 ≤ analyzeHfEngagement i ∧ analyzeHfEngagement i ≤ 4/5 := by
  simp only [analyzeHfEngagement, pymin]
  split_ifs <;> norm_num

theorem gitScoreFromClones_nonneg (th : BusFactorThresholds)
    (hpen : 0 ≤ th.single_contributor_penalty) :
    ∀ clones : List (Option ℤ), 0 ≤ gitScoreFromClones th clones := by
  intro clones
  induction clones with
  | nil => simp [gitScoreFromClones]
  | cons hd tl ih =>
    rcases hd with _ | ua
    · simpa [gitScoreFromClones] using ih
    · simp only [gitScoreFromClones]
      split_ifs <;> linarith

theorem calculateBusFactorScore_mem (th : BusFactorThresholds)
    (hpen : 0 ≤ th.single_contributor_penalty)
    (hfInfo : Option HFInfo) (clones : List (Option ℤ)) :
    0 ≤ calculateBusFactorScore th hfInfo clones ∧
      calculateBusFactorScore th hfInfo clones ≤ 1 := by
  have hg := gitScoreFromClones_nonneg th hpen clones
  rcases hfInfo with _ | i
  · exact ⟨pymin_one_nonneg (by linarith), pymin_one_le_one _⟩
  · have he := analyzeHfEngagement_mem i
    exact ⟨pymin_one_nonneg (by nlinarith [he.1]), pymin_one_le_one _⟩

theorem calculateDatasetCodeScore_mem (datasets codeRepos : List ParsedURL)
    (readme : Option (List Char)) (hfInfo : Option HFInfo) :
    0 ≤ calculateDatasetCodeScore datasets codeRepos readme hfInfo ∧
      calculateDatasetCodeScore datasets codeRepos readme hfInfo ≤ 1 := by
  simp only [calculateDatasetCodeScore]
  split_ifs <;> norm_num

theorem analyzeDatasetContent_mem (readme : List Char)
    (dsTags : Option (List (List Char))) :
    0 ≤ analyzeDatasetContent readme dsTags ∧
      analyzeDatasetContent readme dsTags ≤ 1 := by
  simp only [analyzeDatasetContent]
  split_ifs <;> norm_num

theorem analyzeHfDatasetQuality_mem (fetchedReadme : Option (List Char))
    (dsTags : Option (List (List Char))) :
    0 ≤ analyzeHfDatasetQuality fetchedReadme dsTags ∧
      analyzeHfDatasetQuality fetchedReadme dsTags ≤ 1 := by
  rw [analyzeHfDatasetQuality]
  split_ifs <;> first | exact analyzeDatasetContent_mem _ _ | norm_num

theorem dsQualityFold_bounds
    (l : List (ParsedURL × (Option (List Char) × Option (List (List Char))))) :
    0 ≤ (dsQualityFold l).1 ∧ (dsQualityFold l).1 ≤ ((dsQualityFold l).2 : ℚ) := by
  induction l with
  | nil => simp [dsQualityFold]
  | cons hd tl ih =>
    obtain ⟨ds, f⟩ := hd
    have hq := analyzeHfDatasetQuality_mem f.1 f.2
    simp only [dsQualityFold]
    split_ifs
    · constructor
      · dsimp only
        linarith [ih.1, hq.1]
      · dsimp only
        push_cast
        linarith [ih.2, hq.2]
    · exact ih

theorem calculateDatasetQualityScore_mem (datasets : List ParsedURL)
    (readme : Option (List Char))
    (fetches : List (Option (List Char) × Option (List (List Char)))) :
    0 ≤ calculateDatasetQualityScore datasets readme fetches ∧
      calculateDatasetQualityScore datasets readme fetches ≤ 1 := by
  simp only [calculateDatasetQualityScore]
  have hb := dsQualityFold_bounds (datasets.zip fetches)
  split_ifs with h1 h2 h3 h4
  · exact analyzeDatasetContent_mem _ _
  · norm_num
  · exact analyzeDatasetContent_mem _ _
  · norm_num
  · have hn : (0 : ℚ) < ((dsQualityFold (datasets.zip fetches)).2 : ℚ) := by
      have : (dsQualityFold (datasets.zip fetches)).2 ≠ 0 := h3
      exact_mod_cast Nat.pos_of_ne_zero this
    constructor
    · exact div_nonneg hb.1 hn.le
    · rw [div_le_one hn]
      exact hb.2

theorem analyzeCodeQualityBySpec_mem (totalErrors : ℕ) (hasTests hasCI : Bool) :
    0 ≤ analyzeCodeQualityBySpec totalErrors hasTests hasCI ∧
      analyzeCodeQualityBySpec totalErrors hasTests hasCI ≤ 1 := by
  have he : (0 : ℚ) ≤ (totalErrors : ℚ) := Nat.cast_nonneg _
  simp only [analyzeCodeQualityBySpec, pymin, pymax]
  split_ifs <;> constructor <;> linarith

theorem codeQualityFold_bounds (l : List (ParsedURL × Option (ℕ × Bool × Bool))) :
    0 ≤ (codeQualityFold l).1 ∧ (codeQualityFold l).1 ≤ ((codeQualityFold l).2 : ℚ) := by
  induction l with
  | nil => simp [codeQualityFold]
  | cons hd tl ih =>
    obtain ⟨repo, outcome⟩ := hd
    simp only [codeQualityFold]
    split_ifs
    · rcases outcome with _ | ⟨e, t, c⟩
      · exact ih
      · have := analyzeCodeQualityBySpec_mem e t c
        constructor
        · dsimp only
          linarith [this.1]
        · dsimp only
          push_cast
          linarith [this.2]
    · exact ih

theorem calculateCodeQualityScore_mem (codeRepos : List ParsedURL)
    (outcomes : List (Option (ℕ × Bool × Bool))) :
    0 ≤ calculateCodeQualityScore codeRepos outcomes ∧
      calculateCodeQualityScore codeRepos outcomes ≤ 1 := by
  simp only [calculateCodeQualityScore]
  have hb := codeQualityFold_bounds ((codeRepos.take 2).zip outcomes)
  split_ifs with h1 h2
  · norm_num
  · norm_num
  · have hn : (0 : ℚ) < ((codeQualityFold ((codeRepos.take 2).zip outcomes)).2 : ℚ) := by
      have : (codeQualityFold ((codeRepos.take 2).zip outcomes)).2 ≠ 0 := h2
      exact_mod_cast Nat.pos_of_ne_zero this
    exact ⟨div_nonneg hb.1 hn.le, by rw [div_le_one hn]; exact hb.2⟩

theorem latencyMs_nonneg {start stop : ℝ} (h : start ≤ stop) :
    0 ≤ latencyMs start stop := by
  rw [latencyMs]
  exact Int.floor_nonneg.mpr (by nlinarith)

/-! ## Claim C4 — enrichment resilience -/

theorem readmeLoop_error (e : EvalError) :
    ∀ files : List (List Char),
      readmeLoop (fun _ => Except.error e) files = none := by
  intro files
  induction files with
  | nil => rfl
  | cons f rest ih => simpa [readmeLoop] using ih

theorem gitScoreFromClones_all_none (th : BusFactorThresholds) :
    ∀ clones : List (Option ℤ), (∀ x ∈ clones, x = none) →
      gitScoreFromClones th clones = 0 := by
  intro clones
  induction clones with
  | nil => intro _; rfl
  | cons hd tl ih =>
    intro h
    have hhd : hd = none := h hd (List.mem_cons_self _ _)
    subst hhd
    exact ih fun x hx => h x (List.mem_cons_of_mem _ hx)

theorem codeQualityFold_all_none :
    ∀ l : List (ParsedURL × Option (ℕ × Bool × Bool)),
      (∀ p ∈ l, p.2 = none) → codeQualityFold l = (0, 0) := by
  intro l
  induction l with
  | nil => intro _; rfl
  | cons hd tl ih =>
    intro h
    obtain ⟨repo, outcome⟩ := hd
    have hhd : outcome = none := h (repo, outcome) (List.mem_cons_self _ _)
    subst hhd
    have htl := ih fun p hp => h p (List.mem_cons_of_mem _ hp)
    simp only [codeQualityFold]
    split_ifs <;> exact htl

theorem calculateCodeQualityScore_all_none (codeRepos : List ParsedURL)
    (outcomes : List (Option (ℕ × Bool × Bool)))
    (h : ∀ x ∈ outcomes, x = none) :
    calculateCodeQualityScore codeRepos outcomes = 2/5 := by
  simp only [calculateCodeQualityScore]
  have hz : codeQualityFold ((codeRepos.take 2).zip outcomes) = (0, 0) :=
    codeQualityFold_all_none _ fun p hp => h p.2 (List.of_mem_zip hp).2
  rw [hz]
  split_ifs with h1 h2
  · rfl
  · rfl
  · exact absurd rfl h2

/-- C4: when every evidence-provider call fails — the raw model-info call,
the file-listing call, every file download for the README and the config
files all raise — enrichment still completes (the embedded `enrichContext`
is a total function), each enrichment field is left `None` while the rest of
the context is untouched, and every downstream metric evaluator still
produces a score in `[0,1]` from its fallback path (ramp-up 0.1, license
0.3, performance-claims 0, bus-factor 0 with all clones failing, code
quality 0.4 with all clones failing, and in-range dataset/dataset-quality
and per-device size scores). -/
theorem C4_enrichment_resilience
    (ctx : ModelContext) (e : EvalError)
    (jsonOk : List Char → Bool)
    (parseReadme : List Char → Option (List Char))
    (th : BusFactorThresholds)
    (clones : List (Option ℤ))
    (dsFetches : List (Option (List Char) × Option (List (List Char))))
    (cqOutcomes : List (Option (ℕ × Bool × Bool)))
    (est : ℝ) (limits : SizeLimits)
    (hclones : ∀ x ∈ clones, x = none)
    (hcq : ∀ x ∈ cqOutcomes, x = none)
    (hest : 0 ≤ est) :
    (enrichContext ctx (.error e) (.error e) (fun _ => .error e)
        (fun _ => .error e) jsonOk).hf_info = none ∧
    (enrichContext ctx (.error e) (.error e) (fun _ => .error e)
        (fun _ => .error e) jsonOk).readme_content = none ∧
    (enrichContext ctx (.error e) (.error e) (fun _ => .error e)
        (fun _ => .error e) jsonOk).config_data = none ∧
    (enrichContext ctx (.error e) (.error e) (fun _ => .error e)
        (fun _ => .error e) jsonOk).model_url = ctx.model_url ∧
    (enrichContext ctx (.error e) (.error e) (fun _ => .error e)
        (fun _ => .error e) jsonOk).datasets = ctx.datasets ∧
    (enrichContext ctx (.error e) (.error e) (fun _ => .error e)
        (fun _ => .error e) jsonOk).code_repos = ctx.code_repos ∧
    calculateRampUpScore none none = 1/10 ∧
    calculateLicenseScore parseReadme none none = 3/10 ∧
    calculatePerformanceScore none = 0 ∧
    (0 ≤ th.single_contributor_penalty →
      calculateBusFactorScore th none clones = 0) ∧
    calculateCodeQualityScore ctx.code_repos cqOutcomes = 2/5 ∧
    (0 ≤ calculateDatasetQualityScore ctx.datasets none dsFetches ∧
      calculateDatasetQualityScore ctx.datasets none dsFetches ≤ 1) ∧
    (0 ≤ calculateDatasetCodeScore ctx.datasets ctx.code_repos none none ∧
      calculateDatasetCodeScore ctx.datasets ctx.code_repos none none ≤ 1) ∧
    (0 ≤ calculateDeviceScore est limits.raspberry_pi ∧
      calculateDeviceScore est limits.raspberry_pi ≤ 1) ∧
    (0 ≤ calculateDeviceScore est limits.jetson_nano ∧
      calculateDeviceScore est limits.jetson_nano ≤ 1) ∧
    (0 ≤ calculateDeviceScore est limits.desktop_pc ∧
      calculateDeviceScore est limits.desktop_pc ≤ 1) ∧
    (0 ≤ calculateDeviceScore est limits.aws_server ∧
      calculateDeviceScore est limits.aws_server ≤ 1) := by
  refine ⟨?_, ?_, ?_, rfl, rfl, rfl, by norm_num [calculateRampUpScore, truthyOptStr],
    by norm_num [calculateLicenseScore, truthyOptStr],
    by norm_num [calculatePerformanceScore, truthyOptStr], ?_, ?_,
    calculateDatasetQualityScore_mem _ _ _,
    calculateDatasetCodeScore_mem _ _ _ _,
    calculateDeviceScore_mem_Icc hest, calculateDeviceScore_mem_Icc hest,
    calculateDeviceScore_mem_Icc hest, calculateDeviceScore_mem_Icc hest⟩
  · simp only [enrichContext, getModelInfo]
    split_ifs <;> rfl
  · simp only [enrichContext, getReadmeContent]
    split_ifs with h
    · rfl
    · exact readmeLoop_error e readmeFileNames
  · simp only [enrichContext, getModelConfig]
    split_ifs with h h2
    · rfl
    · rfl
    · exfalso
      apply h2
      simp [configFileNames]
  · intro hpen
    rw [calculateBusFactorScore, gitScoreFromClones_all_none th clones hclones]
    norm_num [pymin]
  · exact calculateCodeQualityScore_all_none _ _ hcq

/-- C4 (witness): the resilience theorem at a concrete Hugging Face model
context with one failing clone and one failing dataset fetch. -/
theorem C4_enrichment_resilience_witness :
    (enrichContext
        { model_url := ⟨"https://huggingface.co/o/m".data, URLCategory.MODEL,
            "o/m".data, "huggingface".data, some "o".data, some "m".data⟩ }
        (.error (.exn "down".data)) (.error (.exn "down".data))
        (fun _ => .error (.exn "down".data)) (fun _ => .error (.exn "down".data))
        (fun _ => false)).hf_info = none ∧
    (enrichContext
        { model_url := ⟨"https://huggingface.co/o/m".data, URLCategory.MODEL,
            "o/m".data, "huggingface".data, some "o".data, some "m".data⟩ }
        (.error (.exn "down".data)) (.error (.exn "down".data))
        (fun _ => .error (.exn "down".data)) (fun _ => .error (.exn "down".data))
        (fun _ => false)).readme_content = none ∧
    calculateRampUpScore none none = 1/10 ∧
    calculateBusFactorScore {} none [none] = 0 := by
  have h := C4_enrichment_resilience
    { model_url := ⟨"https://huggingface.co/o/m".data, URLCategory.MODEL,
        "o/m".data, "huggingface".data, some "o".data, some "m".data⟩ }
    (.exn "down".data) (fun _ => false) (fun _ => none) {} [none] [(none, none)]
    [none] 2 {} (by simp) (by simp) (by norm_num)
  exact ⟨h.1, h.2.1, h.2.2.2.2.2.2.1,
    h.2.2.2.2.2.2.2.2.2.1 (by norm_num)⟩

/-! ## Claim C5 — range invariants -/

theorem mkMetricResult_fields {s : ℚ} {l : ℤ} {r : MetricResult}
    (h : mkMetricResult s l = some r) :
    0 ≤ r.score ∧ r.score ≤ 1 ∧ 0 ≤ r.latency := by
  rw [mkMetricResult] at h
  split_ifs at h with hc
  cases h
  exact hc

theorem mkSizeScore_fields {rp jn dp aw : ℚ} {z : SizeScore}
    (h : mkSizeScore rp jn dp aw = some z) :
    0 ≤ z.raspberry_pi ∧ z.raspberry_pi ≤ 1 ∧ 0 ≤ z.jetson_nano ∧
      z.jetson_nano ≤ 1 ∧ 0 ≤ z.desktop_pc ∧ z.desktop_pc ≤ 1 ∧
      0 ≤ z.aws_server ∧ z.aws_server ≤ 1 := by
  rw [mkSizeScore] at h
  split_ifs at h with hc
  cases h
  exact ⟨hc.1, hc.2.1, hc.2.2.1, hc.2.2.2.1, hc.2.2.2.2.1, hc.2.2.2.2.2.1,
    hc.2.2.2.2.2.2.1, hc.2.2.2.2.2.2.2⟩

theorem mkAuditResult_valid {araw a : AuditResult}
    (h : mkAuditResult araw = some a) : auditFieldsValid a := by
  rw [mkAuditResult] at h
  split_ifs at h with hc
  cases h
  exact hc

theorem netScore_mem (w1 w2 w3 w4 w5 w6 w7 w8 s1 s2 s3 s4 s5 s6 s7 a b c d : ℚ)
    (l1 l2 l3 l4 l5 l6 l7 lsz : ℤ)
    (hw1 : 0 ≤ w1) (hw2 : 0 ≤ w2) (hw3 : 0 ≤ w3) (hw4 : 0 ≤ w4) (hw5 : 0 ≤ w5)
    (hw6 : 0 ≤ w6) (hw7 : 0 ≤ w7) (hw8 : 0 ≤ w8)
    (hs1 : 0 ≤ s1 ∧ s1 ≤ 1) (hs2 : 0 ≤ s2 ∧ s2 ≤ 1) (hs3 : 0 ≤ s3 ∧ s3 ≤ 1)
    (hs4 : 0 ≤ s4 ∧ s4 ≤ 1) (hs5 : 0 ≤ s5 ∧ s5 ≤ 1) (hs6 : 0 ≤ s6 ∧ s6 ≤ 1)
    (hs7 : 0 ≤ s7 ∧ s7 ≤ 1) (hsa : 0 ≤ a ∧ a ≤ 1) (hsb : 0 ≤ b ∧ b ≤ 1)
    (hsc : 0 ≤ c ∧ c ≤ 1) (hsd : 0 ≤ d ∧ d ≤ 1) :
    0 ≤ calculateNetScore (weightsOf w1 w2 w3 w4 w5 w6 w7 w8)
        (computeMetricsParallel
          (okOutcomes s1 s2 s3 s4 s5 s6 s7 a b c d l1 l2 l3 l4 l5 l6 l7 lsz)) ∧
      calculateNetScore (weightsOf w1 w2 w3 w4 w5 w6 w7 w8)
        (computeMetricsParallel
          (okOutcomes s1 s2 s3 s4 s5 s6 s7 a b c d l1 l2 l3 l4 l5 l6 l7 lsz)) ≤ 1 := by
  rw [netScore_closed_form]
  have hm1 : s1 * w1 ≤ w1 := mul_le_of_le_one_left hw1 hs1.2
  have hm2 : s2 * w2 ≤ w2 := mul_le_of_le_one_left hw2 hs2.2
  have hm3 : s3 * w3 ≤ w3 := mul_le_of_le_one_left hw3 hs3.2
  have hm4 : s4 * w4 ≤ w4 := mul_le_of_le_one_left hw4 hs4.2
  have hm5 : s5 * w6 ≤ w6 := mul_le_of_le_one_left hw6 hs5.2
  have hm6 : s6 * w7 ≤ w7 := mul_le_of_le_one_left hw7 hs6.2
  have hm7 : s7 * w8 ≤ w8 := mul_le_of_le_one_left hw8 hs7.2
  have hsize : (a + b + c + d) / 4 * w5 ≤ w5 :=
    mul_le_of_le_one_left hw5 (by linarith [hsa.2, hsb.2, hsc.2, hsd.2])
  have hn1 : 0 ≤ s1 * w1 := mul_nonneg hs1.1 hw1
  have hn2 : 0 ≤ s2 * w2 := mul_nonneg hs2.1 hw2
  have hn3 : 0 ≤ s3 * w3 := mul_nonneg hs3.1 hw3
  have hn4 : 0 ≤ s4 * w4 := mul_nonneg hs4.1 hw4
  have hn5 : 0 ≤ s5 * w6 := mul_nonneg hs5.1 hw6
  have hn6 : 0 ≤ s6 * w7 := mul_nonneg hs6.1 hw7
  have hn7 : 0 ≤ s7 * w8 := mul_nonneg hs7.1 hw8
  have hnsize : 0 ≤ (a + b + c + d) / 4 * w5 :=
    mul_nonneg (by linarith [hsa.1, hsb.1, hsc.1, hsd.1]) hw5
  have hpm : (1 : ℚ) ≤ pymax (w1 + w2 + w3 + w4 + w5 + w6 + w7 + w8) 1 :=
    le_pymax_right _ _
  have hpw : w1 + w2 + w3 + w4 + w5 + w6 + w7 + w8 ≤
      pymax (w1 + w2 + w3 + w4 + w5 + w6 + w7 + w8) 1 := le_pymax_left _ _
  constructor
  · exact div_nonneg (by linarith) (by linarith)
  · rw [div_le_one (by linarith)]
    linarith

/-- C5: the pydantic validators on `MetricResult`, `SizeScore` and
`AuditResult` admit exactly the in-range values — every successfully
constructed result has all scores in `[0,1]` and all latencies non-negative —
and every embedded metric evaluator (plus the net-score aggregation over
in-range inputs with non-negative weights, and the wall-clock latency
measurement) produces values inside those bounds, so construction succeeds. -/
theorem C5_score_latency_invariants (s : ℚ) (l : ℤ) (r : MetricResult)
    (rp jn dp aw : ℚ) (z : SizeScore) (araw a : AuditResult)
    (hmk : mkMetricResult s l = some r)
    (hsz : mkSizeScore rp jn dp aw = some z)
    (ha : mkAuditResult araw = some a) :
    (0 ≤ r.score ∧ r.score ≤ 1 ∧ 0 ≤ r.latency) ∧
    (0 ≤ z.raspberry_pi ∧ z.raspberry_pi ≤ 1 ∧ 0 ≤ z.jetson_nano ∧
      z.jetson_nano ≤ 1 ∧ 0 ≤ z.desktop_pc ∧ z.desktop_pc ≤ 1 ∧
      0 ≤ z.aws_server ∧ z.aws_server ≤ 1) ∧
    auditFieldsValid a ∧
    (∀ (readme : Option (List Char)) (hfInfo : Option HFInfo),
      0 ≤ calculateRampUpScore readme hfInfo ∧
        calculateRampUpScore readme hfInfo ≤ 1) ∧
    (∀ (parseReadme : List Char → Option (List Char)) (hfInfo : Option HFInfo)
        (readme : Option (List Char)),
      0 ≤ calculateLicenseScore parseReadme hfInfo readme ∧
        calculateLicenseScore parseReadme hfInfo readme ≤ 1) ∧
    (∀ readme : Option (List Char),
      0 ≤ calculatePerformanceScore readme ∧
        calculatePerformanceScore readme ≤ 1) ∧
    (∀ (th : BusFactorThresholds) (hfInfo : Option HFInfo)
        (clones : List (Option ℤ)), 0 ≤ th.single_contributor_penalty →
      0 ≤ calculateBusFactorScore th hfInfo clones ∧
        calculateBusFactorScore th hfInfo clones ≤ 1) ∧
    (∀ (datasets codeRepos : List ParsedURL) (readme : Option (List Char))
        (hfInfo : Option HFInfo),
      0 ≤ calculateDatasetCodeScore datasets codeRepos readme hfInfo ∧
        calculateDatasetCodeScore datasets codeRepos readme hfInfo ≤ 1) ∧
    (∀ (datasets : List ParsedURL) (readme : Option (List Char))
        (fetches : List (Option (List Char) × Option (List (List Char)))),
      0 ≤ calculateDatasetQualityScore datasets readme fetches ∧
        calculateDatasetQualityScore datasets readme fetches ≤ 1) ∧
    (∀ (codeRepos : List ParsedURL) (outcomes : List (Option (ℕ × Bool × Bool))),
      0 ≤ calculateCodeQualityScore codeRepos outcomes ∧
        calculateCodeQualityScore codeRepos outcomes ≤ 1) ∧
    (∀ est L : ℝ, 0 ≤ est →
      0 ≤ calculateDeviceScore est L ∧ calculateDeviceScore est L ≤ 1) ∧
    (∀ start stop : ℝ, start ≤ stop → 0 ≤ latencyMs start stop) ∧
    (∀ (w1 w2 w3 w4 w5 w6 w7 w8 t1 t2 t3 t4 t5 t6 t7 va vb vc vd : ℚ)
        (l1 l2 l3 l4 l5 l6 l7 lsz : ℤ),
      0 ≤ w1 → 0 ≤ w2 → 0 ≤ w3 → 0 ≤ w4 → 0 ≤ w5 → 0 ≤ w6 → 0 ≤ w7 → 0 ≤ w8 →
      0 ≤ t1 ∧ t1 ≤ 1 → 0 ≤ t2 ∧ t2 ≤ 1 → 0 ≤ t3 ∧ t3 ≤ 1 → 0 ≤ t4 ∧ t4 ≤ 1 →
      0 ≤ t5 ∧ t5 ≤ 1 → 0 ≤ t6 ∧ t6 ≤ 1 → 0 ≤ t7 ∧ t7 ≤ 1 →
      0 ≤ va ∧ va ≤ 1 → 0 ≤ vb ∧ vb ≤ 1 → 0 ≤ vc ∧ vc ≤ 1 → 0 ≤ vd ∧ vd ≤ 1 →
      0 ≤ calculateNetScore (weightsOf w1 w2 w3 w4 w5 w6 w7 w8)
          (computeMetricsParallel
            (okOutcomes t1 t2 t3 t4 t5 t6 t7 va vb vc vd l1 l2 l3 l4 l5 l6 l7 lsz)) ∧
        calculateNetScore (weightsOf w1 w2 w3 w4 w5 w6 w7 w8)
          (computeMetricsParallel
            (okOutcomes t1 t2 t3 t4 t5 t6 t7 va vb vc vd l1 l2 l3 l4 l5 l6 l7 lsz)) ≤ 1) := by
  refine ⟨mkMetricResult_fields hmk, mkSizeScore_fields hsz, mkAuditResult_valid ha,
    calculateRampUpScore_mem, calculateLicenseScore_mem,
    calculatePerformanceScore_mem,
    fun th hfInfo clones hpen => calculateBusFactorScore_mem th hpen hfInfo clones,
    calculateDatasetCodeScore_mem, calculateDatasetQualityScore_mem,
    calculateCodeQualityScore_mem,
    fun est L hest => calculateDeviceScore_mem_Icc hest,
    fun start stop h => latencyMs_nonneg h,
    fun w1 w2 w3 w4 w5 w6 w7 w8 t1 t2 t3 t4 t5 t6 t7 va vb vc vd
        l1 l2 l3 l4 l5 l6 l7 lsz hw1 hw2 hw3 hw4 hw5 hw6 hw7 hw8
        ht1 ht2 ht3 ht4 ht5 ht6 ht7 hva hvb hvc hvd =>
      netScore_mem w1 w2 w3 w4 w5 w6 w7 w8 t1 t2 t3 t4 t5 t6 t7 va vb vc vd
        l1 l2 l3 l4 l5 l6 l7 lsz hw1 hw2 hw3 hw4 hw5 hw6 hw7 hw8
        ht1 ht2 ht3 ht4 ht5 ht6 ht7 hva hvb hvc hvd⟩

/-- C5 (witness): the invariants theorem at a concrete validated
`MetricResult`, `SizeScore` and `AuditResult`, with a concrete evaluator
range instantiated. -/
theorem C5_score_latency_invariants_witness :
    ((0 : ℚ) ≤ (1/2 : ℚ) ∧ (1/2 : ℚ) ≤ 1 ∧ (0 : ℤ) ≤ 5) ∧
    (0 ≤ calculateRampUpScore none none ∧ calculateRampUpScore none none ≤ 1) := by
  have h := C5_score_latency_invariants (1/2) 5 ⟨1/2, 5⟩ (1/2) (1/2) (1/2) (1/2)
    ⟨1/2, 1/2, 1/2, 1/2⟩
    { name := "m".data, category := "MODEL".data, net_score := 1/2,
      net_score_latency := 5, ramp_up_time := 1/2, ramp_up_time_latency := 5,
      bus_factor := 1/2, bus_factor_latency := 5, performance_claims := 1/2,
      performance_claims_latency := 5, license := 1/2, license_latency := 5,
      size_score := ⟨1/2, 1/2, 1/2, 1/2⟩, size_score_latency := 5,
      dataset_and_code_score := 1/2, dataset_and_code_score_latency := 5,
      dataset_quality := 1/2, dataset_quality_latency := 5,
      code_quality := 1/2, code_quality_latency := 5 }
    { name := "m".data, category := "MODEL".data, net_score := 1/2,
      net_score_latency := 5, ramp_up_time := 1/2, ramp_up_time_latency := 5,
      bus_factor := 1/2, bus_factor_latency := 5, performance_claims := 1/2,
      performance_claims_latency := 5, license := 1/2, license_latency := 5,
      size_score := ⟨1/2, 1/2, 1/2, 1/2⟩, size_score_latency := 5,
      dataset_and_code_score := 1/2, dataset_and_code_score_latency := 5,
      dataset_quality := 1/2, dataset_quality_latency := 5,
      code_quality := 1/2, code_quality_latency := 5 }
    (by norm_num [mkMetricResult]) (by norm_num [mkSizeScore])
    (by norm_num [mkAuditResult, auditFieldsValid])
  exact ⟨h.1, h.2.2.2.1 none none⟩

/-! ## Claim C6 — license mapping -/

/-- C6 (counterexample): matching is substring containment, not identifier
equality: the tag `license:limited` (an identifier outside every listed
family) normalizes to `limited`, which contains the substring `mit`, so the
code returns the permissive score 1.0 where the claim's mapping assigns the
ambiguous-identifier score 0.5. -/
theorem C6_license_counterexample :
    calculateLicenseScore (fun _ => none)
        (some { tags := ["license:limited".data] }) none = 1 ∧
      (1 : ℚ) ≠ 1/2 := by
  refine ⟨by decide, by norm_num⟩

/-- C6 (amended): the located license identifier (first `license:<id>`
hosting tag, else the identifier extracted from the README's License
section) is scored by case- and separator-insensitive SUBSTRING containment
of the family keywords in the normalized identifier — an identifier merely
containing `mit`/`apache`/`bsd` scores 1.0, else one containing `lgpl`
scores 0.8, else one containing `gpl` scores 0.7, any other non-empty
identifier 0.5, and no identifier 0.3 — with the claim's anchor values on the
canonical identifiers. -/
theorem C6_license_mapping_amended (s readme : List Char)
    (hr : truthyStr readme = true) (hs : truthyStr s = true) :
    calculateLicenseScore (fun _ => some s) none (some readme) =
      (if compatibleLicenses.any (fun c => inStr c (normalizeLicense s)) then 1
       else if lgplVariants.any (fun c => inStr c (normalizeLicense s)) then 4/5
       else if gplVariants.any (fun c => inStr c (normalizeLicense s)) then 7/10
       else 1/2) ∧
    calculateLicenseScore (fun _ => none) none none = 3/10 ∧
    calculateLicenseScore (fun _ => some "MIT License".data) none
      (some "# model".data) = 1 ∧
    calculateLicenseScore (fun _ => none)
      (some { tags := ["license:mit".data] }) none = 1 ∧
    calculateLicenseScore (fun _ => none)
      (some { tags := ["license:Apache-2.0".data] }) none = 1 ∧
    calculateLicenseScore (fun _ => none)
      (some { tags := ["license:LGPL-2.1".data] }) none = 4/5 ∧
    calculateLicenseScore (fun _ => none)
      (some { tags := ["license:GPL-3.0".data] }) none = 7/10 ∧
    calculateLicenseScore (fun _ => some "GPL v3".data) none
      (some "# model".data) = 7/10 ∧
    calculateLicenseScore (fun _ => none)
      (some { tags := ["license:openrail".data] }) none = 1/2 := by
  refine ⟨?_, by with_unfolding_all decide, by with_unfolding_all decide,
    by with_unfolding_all decide, by with_unfolding_all decide,
    by with_unfolding_all decide, by with_unfolding_all decide,
    by with_unfolding_all decide, by with_unfolding_all decide⟩
  simp [calculateLicenseScore, truthyOptStr, hr, hs]

/-- C6 (witness): the amended mapping theorem evaluated at the identifier
`bsd-3-clause` located in the README, which normalizes to `bsd3clause` and
scores 1.0. -/
theorem C6_license_mapping_witness :
    calculateLicenseScore (fun _ => some "bsd-3-clause".data) none
      (some "# model".data) = 1 :=
  ((C6_license_mapping_amended "bsd-3-clause".data "# model".data
      (by decide) (by decide)).1).trans (by with_unfolding_all decide)

/-! ## Claim C7 — bus factor -/

/-- C7 (counterexample): a context with no hosting metadata and a linked code
repository whose clone yields 5 unique commit authors scores 0.8 — the
git-side step value for three-or-more contributors — whereas the claim's
formula `min(1.0, unique_authors / 5.0)` gives 1.0. -/
theorem C7_bus_factor_counterexample :
    calculateBusFactorScore {} none [some 5] = 4/5 ∧
    pymin 1 ((5 : ℚ) / 5) = 1 ∧
    (4 : ℚ)/5 ≠ 1 := by
  refine ⟨by with_unfolding_all decide, by norm_num [pymin], by norm_num⟩

/-- Amended description of the bus-factor computation: the `min(1,
0.6·engagement + weight_git·gitstep)` blend, with the git step taken from the
first successfully cloned repository's unique-author count. -/
def busFactorAmendedSpec (th : BusFactorThresholds) (hfInfo : Option HFInfo)
    (clones : List (Option ℤ)) : ℚ :=
  let g : ℚ :=
    match (clones.filterMap id).head? with
    | none => 0
    | some ua =>
      if ua ≥ th.min_contributors then 4/5
      else if ua = 2 then 3/5
      else if ua = 1 then th.single_contributor_penalty
      else 1/10
  match hfInfo with
  | some i => pymin 1 (analyzeHfEngagement i * (3/5) + g * (2/5))
  | none => pymin 1 (g * 1)

/-- C7 (amended): the bus-factor score is not `min(1, unique_authors/5)`; it
is the capped blend `min(1, 0.6·hosting_engagement + weight_git·git_step)` —
`weight_git = 0.4` when hosting metadata is present and `1.0` otherwise —
where `git_step` maps the unique-author count of the first successfully
cloned linked repository through the step `≥ min_contributors (3) → 0.8,
2 → 0.6, 1 → single_contributor_penalty (0.5), else → 0.1`, and is `0.0` when
no linked repository clones; the hosting-engagement estimate is a
download/like/recency step sum capped at 0.8, not a `contributors/5` shape. -/
theorem C7_bus_factor_amended (th : BusFactorThresholds)
    (hfInfo : Option HFInfo) (clones : List (Option ℤ)) :
    calculateBusFactorScore th hfInfo clones =
      busFactorAmendedSpec th hfInfo clones ∧
    calculateBusFactorScore {} none [some 5] = 4/5 ∧
    calculateBusFactorScore {} none [some 2] = 3/5 ∧
    calculateBusFactorScore {} none [some 1] = 1/2 ∧
    calculateBusFactorScore {} none [none, some 7] = 4/5 ∧
    calculateBusFactorScore {} none [] = 0 ∧
    calculateBusFactorScore {}
      (some { downloads := 20000, likes := 200, lastModifiedPresent := true })
      [] = 12/25 := by
  constructor
  · have hg : gitScoreFromClones th clones =
        (match (clones.filterMap id).head? with
         | none => (0 : ℚ)
         | some ua =>
           if ua ≥ th.min_contributors then 4/5
           else if ua = 2 then 3/5
           else if ua = 1 then th.single_contributor_penalty
           else 1/10) := by
      induction clones with
      | nil => rfl
      | cons hd tl ih =>
        rcases hd with _ | ua
        · simpa [gitScoreFromClones, List.filterMap] using ih
        · simp [gitScoreFromClones, List.filterMap]
    rcases hfInfo with _ | i <;>
      simp [calculateBusFactorScore, busFactorAmendedSpec, hg]
  · refine ⟨by with_unfolding_all decide, by with_unfolding_all decide,
      by with_unfolding_all decide, by with_unfolding_all decide,
      by with_unfolding_all decide, by with_unfolding_all decide⟩

/-- C7 (witness): the amended characterization evaluated at a concrete
hosting-engagement payload with one failed and one successful clone. -/
theorem C7_bus_factor_witness :
    calculateBusFactorScore {}
        (some { downloads := 20000, likes := 200, lastModifiedPresent := true })
        [none, some 4] =
      busFactorAmendedSpec {}
        (some { downloads := 20000, likes := 200, lastModifiedPresent := true })
        [none, some 4] ∧
    busFactorAmendedSpec {}
        (some { downloads := 20000, likes := 200, lastModifiedPresent := true })
        [none, some 4] = 4/5 :=
  ⟨(C7_bus_factor_amended {}
      (some { downloads := 20000, likes := 200, lastModifiedPresent := true })
      [none, some 4]).1,
    by with_unfolding_all decide⟩

/-! ## Claim C8 — performance-claims tiers -/

/-- C8 (counterexample): with no README at all the code returns 0.0 (the
function's own docstring says "none → 0.0"), not the claimed default 0.1;
the 0.1 default applies only to a present README with no performance
evidence. -/
theorem C8_performance_counterexample :
    calculatePerformanceScore none = 0 ∧ (0 : ℚ) ≠ 1/10 := by
  refine ⟨by decide, by norm_num⟩

/-- C8 (amended): an absent (or empty) README scores 0.0; a present README is
scored by the tier cascade in order — explicit negative statement → 0.05;
benchmarks + paper reference + detailed-results markers → 0.85; benchmarks +
paper reference → 0.75; reproducibility markers + benchmarks → 1.0;
benchmarks alone → 0.5; no performance evidence in the README → 0.1 — with
one concrete anchor per tier. -/
theorem C8_performance_tiers_amended (readme : List Char)
    (hr : truthyStr readme = true) :
    calculatePerformanceScore none = 0 ∧
    calculatePerformanceScore (some []) = 0 ∧
    calculatePerformanceScore (some readme) =
      (if negativeIndicators.any (fun k => inStr k (lowerL readme)) then 1/20
       else if (benchmarkPatterns.any (fun k => inStr k (lowerL readme)) &&
           paperIndicators.any (fun k => inStr k (lowerL readme))) &&
           detailedIndicators.any (fun k => inStr k (lowerL readme)) then 17/20
       else if benchmarkPatterns.any (fun k => inStr k (lowerL readme)) &&
           paperIndicators.any (fun k => inStr k (lowerL readme)) then 3/4
       else if reproducibleIndicators.any (fun k => inStr k (lowerL readme)) &&
           benchmarkPatterns.any (fun k => inStr k (lowerL readme)) then 1
       else if benchmarkPatterns.any (fun k => inStr k (lowerL readme)) then 1/2
       else 1/10) ∧
    calculatePerformanceScore (some "No benchmark data is available.".data) = 1/20 ∧
    calculatePerformanceScore
      (some "benchmark results, see paper | table".data) = 17/20 ∧
    calculatePerformanceScore (some "benchmark results, see paper".data) = 3/4 ∧
    calculatePerformanceScore (some "benchmark with eval script".data) = 1 ∧
    calculatePerformanceScore (some "benchmark".data) = 1/2 ∧
    calculatePerformanceScore (some "a small language model".data) = 1/10 := by
  refine ⟨by decide, by decide, ?_, by with_unfolding_all decide,
    by with_unfolding_all decide, by with_unfolding_all decide,
    by with_unfolding_all decide, by with_unfolding_all decide,
    by with_unfolding_all decide⟩
  simp [calculatePerformanceScore, truthyOptStr, hr]

/-- C8 (witness): the amended tier theorem evaluated at a README claiming
GLUE accuracy with an arXiv reference and a results table. -/
theorem C8_performance_tiers_witness :
    calculatePerformanceScore
      (some "GLUE accuracy 91.2, arxiv:1810.04805 | results table".data) = 17/20 :=
  ((C8_performance_tiers_amended
      "GLUE accuracy 91.2, arxiv:1810.04805 | results table".data
      (by decide)).2.2.1).trans (by with_unfolding_all decide)

/-! ## Claim C9 — ramp-up score -/

/-- C9 (counterexample): a README consisting exactly of Usage, Quickstart and
Examples sections with a Python code block matches only the README-presence
check and the usage/API keyword class (all three section names and the code
fence fall into the same 0.25 bucket), so it scores 0.5, not above 0.7. -/
theorem C9_ramp_up_counterexample :
    calculateRampUpScore
        (some "## Usage\n## Quickstart\n## Examples\n```python\nx = 1\n```".data)
        none = 1/2 ∧
    ¬((1 : ℚ)/2 > 7/10) := by
  refine ⟨by with_unfolding_all decide, by norm_num⟩

/-- C9 (amended): the ramp-up score is the sum of four equally-weighted
(0.25) checks — README present, installation keywords, training/evaluation
keywords, usage/API keywords — short-circuited to 0.1 with no (or an empty)
README, plus a 0.1 bonus capped at a total of 1.0 when the file listing
names an example/tutorial/notebook file; a README with only Usage, Quickstart
and Examples sections and a code block scores 0.5, and exceeding 0.7
additionally requires the installation and training keyword classes. -/
theorem C9_ramp_up_amended (readme : List Char) (hfInfo : Option HFInfo)
    (hr : truthyStr readme = true) :
    calculateRampUpScore (some readme) hfInfo =
      pymin 1 (1/4 +
        (if installIndicators.any (fun k => inStr k (lowerL readme)) then (1:ℚ)/4 else 0) +
        (if trainingIndicators.any (fun k => inStr k (lowerL readme)) then (1:ℚ)/4 else 0) +
        (if apiIndicators.any (fun k => inStr k (lowerL readme)) then (1:ℚ)/4 else 0) +
        (match hfInfo with
         | some i => if ¬i.files.isEmpty ∧ i.files.any isExampleFile then (1:ℚ)/10 else 0
         | none => 0)) ∧
    calculateRampUpScore none none = 1/10 ∧
    calculateRampUpScore (some []) none = 1/10 ∧
    calculateRampUpScore
      (some "## Usage\n## Quickstart\n## Examples\n```python\nx = 1\n```".data)
      none = 1/2 ∧
    calculateRampUpScore
      (some "## Installation\npip install m\n## Training\n## Usage\n```python\nimport m\n```".data)
      none = 1 ∧
    calculateRampUpScore
      (some "## Installation\npip install m\n## Training\n## Usage\n```python\nimport m\n```".data)
      (some { files := ["notebooks/demo.ipynb".data] }) = 1 ∧
    ((1 : ℚ) > 7/10) := by
  refine ⟨?_, by with_unfolding_all decide, by with_unfolding_all decide,
    by with_unfolding_all decide, by with_unfolding_all decide,
    by with_unfolding_all decide, by norm_num⟩
  simp [calculateRampUpScore, truthyOptStr, hr]

/-- C9 (witness): the amended formula evaluated at a README hitting all four
keyword classes together with a notebook file in the listing (the bonus is
absorbed by the 1.0 cap). -/
theorem C9_ramp_up_witness :
    calculateRampUpScore
      (some "## Installation\npip install m\n## Training\n## Usage\n```python\nimport m\n```".data)
      (some { files := ["notebooks/demo.ipynb".data] }) = 1 :=
  (C9_ramp_up_amended
      "## Installation\npip install m\n## Training\n## Usage\n```python\nimport m\n```".data
      (some { files := ["notebooks/demo.ipynb".data] }) (by decide)).2.2.2.2.2.1

/-! ## Claim C10 — dataset-and-code trichotomy -/

/-- Dataset indication in the claim's wording: an explicitly linked dataset,
dataset-indicating README keywords, or a structured model-index entry. -/
def specDatasetIndication (datasets : List ParsedURL)
    (readme : Option (List Char)) (hfInfo : Option HFInfo) : Bool :=
  (!datasets.isEmpty) ||
    (truthyOptStr readme &&
      datasetIndicators.any (fun k => inStr k (lowerL (readme.getD [])))) ||
    (match hfInfo with | some i => i.modelIndexPresent | none => false)

/-- Code indication in the claim's wording: an explicitly linked code
repository, code/example README keywords, or example/script files in the
listing. -/
def specCodeIndication (codeRepos : List ParsedURL)
    (readme : Option (List Char)) (hfInfo : Option HFInfo) : Bool :=
  (!codeRepos.isEmpty) ||
    (truthyOptStr readme &&
      codeIndicators.any (fun k => inStr k (lowerL (readme.getD [])))) ||
    (match hfInfo with
     | some i => (!i.files.isEmpty) && i.files.any isScriptFile
     | none => false)

/-- C10: the dataset-and-code score is exactly the claimed trichotomy — 1.0
when both a dataset indication and a code indication are present, 0.5 when
exactly one is, 0.1 when neither is — and in particular a context with one
linked dataset, zero code repositories and no README or listing hints scores
exactly 0.5. -/
theorem C10_dataset_code_trichotomy (datasets codeRepos : List ParsedURL)
    (readme : Option (List Char)) (hfInfo : Option HFInfo) :
    calculateDatasetCodeScore datasets codeRepos readme hfInfo =
      (if specDatasetIndication datasets readme hfInfo &&
          specCodeIndication codeRepos readme hfInfo then 1
       else if specDatasetIndication datasets readme hfInfo ||
          specCodeIndication codeRepos readme hfInfo then 1/2
       else 1/10) ∧
    calculateDatasetCodeScore
      [⟨"https://huggingface.co/datasets/d".data, URLCategory.DATASET,
        "d".data, "huggingface".data, none, some "d".data⟩] [] none none = 1/2 := by
  constructor
  · simp only [calculateDatasetCodeScore, specDatasetIndication,
      specCodeIndication]
    rcases hfInfo with _ | i
    · by_cases h1 : datasets.isEmpty = true <;>
        by_cases h2 : codeRepos.isEmpty = true <;>
        by_cases h3 : truthyOptStr readme = true <;>
        by_cases h4 : (datasetIndicators.any
          (fun k => inStr k (lowerL (readme.getD [])))) = true <;>
        by_cases h5 : (codeIndicators.any
          (fun k => inStr k (lowerL (readme.getD [])))) = true <;>
        simp [h1, h2, h3, h4, h5]
    · by_cases h1 : datasets.isEmpty = true <;>
        by_cases h2 : codeRepos.isEmpty = true <;>
        by_cases h3 : truthyOptStr readme = true <;>
        by_cases h4 : (datasetIndicators.any
          (fun k => inStr k (lowerL (readme.getD [])))) = true <;>
        by_cases h5 : (codeIndicators.any
          (fun k => inStr k (lowerL (readme.getD [])))) = true <;>
        by_cases h6 : i.modelIndexPresent = true <;>
        by_cases h7 : i.files.isEmpty = true <;>
        by_cases h8 : (i.files.any isScriptFile) = true <;>
        simp [h1, h2, h3, h4, h5, h6, h7, h8]
  · with_unfolding_all decide
